import Mathlib

/-!
Verification of the hub candidate resolution and scoring engine of HubRadar
(`src/features/location/services/amapRegeo.ts` and the address-suggestion
resolver).  JavaScript strings are modelled as Lean `String`s (operating on
their `List Char` data), JavaScript numbers as exact rationals `ℚ`
(integer-valued subexpressions as `ℤ`/`ℕ`), `null`/`undefined` as `Option`,
and thrown `AmapApiError`s as `Except`.  `Math.round` and `toFixed` round
half away from zero; every value they are applied to in this code is
non-negative, where that coincides with rounding half up, which is how
`jsRound` is defined.
-/

namespace HubRadar

/-- The set matched by the JavaScript regex class `\s` (also the set trimmed
by `String.prototype.trim`). -/
def isJsWhitespace (c : Char) : Bool :=
  decide (c.val = 0x9 ∨ c.val = 0xA ∨ c.val = 0xB ∨ c.val = 0xC ∨ c.val = 0xD ∨
    c.val = 0x20 ∨ c.val = 0xA0 ∨ c.val = 0x1680 ∨
    (0x2000 ≤ c.val ∧ c.val ≤ 0x200A) ∨
    c.val = 0x2028 ∨ c.val = 0x2029 ∨ c.val = 0x202F ∨ c.val = 0x205F ∨
    c.val = 0x3000 ∨ c.val = 0xFEFF)

/-- JavaScript `String.prototype.trim` on a character list. -/
def jsTrimList (cs : List Char) : List Char :=
  ((cs.dropWhile isJsWhitespace).reverse.dropWhile isJsWhitespace).reverse

/-- JavaScript `String.prototype.trim`. -/
def jsTrim (s : String) : String :=
  ⟨jsTrimList s.data⟩

/-- Whether `pat` occurs as a contiguous sublist of the second list. -/
def listIsInfixOf (pat : List Char) : List Char → Bool
  | [] => pat.isEmpty
  | c :: cs => pat.isPrefixOf (c :: cs) || listIsInfixOf pat cs

/-- JavaScript `a.includes(b)` (substring containment). -/
def strContains (s pat : String) : Bool :=
  listIsInfixOf pat.data s.data

/-- Whether `s` contains at least one of the given substrings; this is how
an unanchored regex alternation such as `/(高铁|动车|城际)/.test(s)` behaves. -/
def containsAny (s : String) (pats : List String) : Bool :=
  pats.any (fun p => strContains s p)

/-- `normalizeStationName`: `name.replace(/\s+/g, '').trim()` removes every
whitespace character (the trailing `trim` is then a no-op). -/
def normalizeStationName (name : String) : String :=
  ⟨name.data.filter (fun c => !isJsWhitespace c)⟩

/-- The administrative suffixes stripped by `normalizeCityToken`, in
decreasing length order.  The source regex
`/(特别行政区|自治州|自治县|地区|盟|市|州|区|县)$/g` removes its leftmost match,
which (since every match must end at the end of the string) is the longest
alternative that is a suffix. -/
def adminSuffixes : List String :=
  ["特别行政区", "自治州", "自治县", "地区", "盟", "市", "州", "区", "县"]

/-- Strip the first (hence longest) suffix of `cs` found in `pats`. -/
def stripFirstSuffix (cs : List Char) : List String → List Char
  | [] => cs
  | p :: ps =>
    if p.data.isSuffixOf cs then cs.take (cs.length - p.data.length)
    else stripFirstSuffix cs ps

/-- `normalizeCityToken`: empty for an absent or empty city name, otherwise
the city name with one trailing administrative suffix removed, trimmed. -/
def normalizeCityToken (cityName : Option String) : String :=
  match cityName with
  | none => ""
  | some c => if c = "" then "" else ⟨jsTrimList (stripFirstSuffix c.data adminSuffixes)⟩

/-- Alternatives of the county-level regex
`/(县|镇|乡|村|新区|开发区|工业园|郊|街道|社区)/`. -/
def countyKeywords : List String :=
  ["县", "镇", "乡", "村", "新区", "开发区", "工业园", "郊", "街道", "社区"]

/-- `isCountyLevelName`. -/
def isCountyLevelName (name : String) : Bool :=
  containsAny name countyKeywords

/-- The four directional characters 东西南北. -/
def directionalChars : List Char :=
  ['东', '西', '南', '北']

/-- `hasDirectionalStationSuffix`: the regex `/(东|西|南|北)站$/`. -/
def hasDirectionalStationSuffix (name : String) : Bool :=
  directionalChars.any (fun d => [d, '站'].isSuffixOf name.data)

/-- A character in the CJK range `[一-龥]`. -/
def isHanChar (c : Char) : Bool :=
  decide (0x4E00 ≤ c.val ∧ c.val ≤ 0x9FA5)

/-- `isCityMainStyleName`: the anchored regex `/^[一-龥]{2,8}(东|西|南|北)?站$/`.
The whole name must be 2 to 8 CJK characters, an optional directional
character, then 站. -/
def isCityMainStyleName (name : String) : Bool :=
  let cs := name.data
  match cs.getLast? with
  | some last =>
    decide (last = '站') &&
      (let body := cs.dropLast;
        (decide (2 ≤ body.length) && decide (body.length ≤ 8) && body.all isHanChar) ||
        (match body.getLast? with
          | some d =>
            directionalChars.contains d && decide (3 ≤ body.length) &&
              decide (body.length ≤ 9) && body.dropLast.all isHanChar
          | none => false))
  | none => false

/-- Alternatives of the high-speed keyword regex `/(高铁|动车|城际)/`. -/
def highSpeedKeywords : List String :=
  ["高铁", "动车", "城际"]

/-- `hasHighSpeedSignal`: a high-speed keyword occurs, or the name has a
directional station suffix. -/
def hasHighSpeedSignal (name : String) : Bool :=
  containsAny name highSpeedKeywords || hasDirectionalStationSuffix name

/-- The major city names of `isNationalHubStyleName`. -/
def nationalHubCities : List String :=
  ["北京", "上海", "广州", "深圳", "成都", "重庆", "西安", "武汉", "杭州", "南京",
   "天津", "郑州", "长沙", "青岛", "昆明", "沈阳", "厦门", "福州", "合肥", "南昌",
   "贵阳", "兰州", "乌鲁木齐"]

/-- The optional directional infix of `isNationalHubStyleName`. -/
def directionalOptions : List String :=
  ["", "东", "西", "南", "北"]

/-- `isNationalHubStyleName`: the unanchored regex
`/(北京|上海|…)(东|西|南|北)?站/` matches somewhere in the name, i.e. the name
contains some city name followed by an optional directional character and 站. -/
def isNationalHubStyleName (name : String) : Bool :=
  nationalHubCities.any (fun c =>
    directionalOptions.any (fun d => strContains name (c ++ d ++ "站")))

/-- `clamp(value, min, max) = Math.min(max, Math.max(min, value))`. -/
def clampInt (value lo hi : ℤ) : ℤ :=
  min hi (max lo value)

/-- `Math.round (a / b)` for an exact rational `a / b` with `b > 0`:
`⌊a / b + 1 / 2⌋` (JavaScript rounds ties toward positive infinity). -/
def jsRoundDiv (a b : ℤ) : ℤ :=
  Int.fdiv (2 * a + b) (2 * b)

/-- Number of bits of `n` (with explicit fuel so that the recursion is
structural). -/
def bitLen : ℕ → ℕ → ℕ
  | 0, _ => 0
  | fuel + 1, n => if n = 0 then 0 else bitLen fuel (n / 2) + 1

/-- Round `m / 2 ^ shift` to the nearest integer, ties to even (the IEEE 754
default rounding). -/
def roundHalfEven (m : ℕ) (shift : ℕ) : ℕ :=
  let q := m / 2 ^ shift
  let r := m % 2 ^ shift
  if 2 ^ shift < 2 * r then q + 1
  else if 2 * r < 2 ^ shift then q
  else if q % 2 = 0 then q else q + 1

/-- Round the dyadic rational `m · 2 ^ e` to IEEE 754 binary64 (53
significant bits, round to nearest, ties to even).  The exponent range
plays no role for the magnitudes arising here (no overflow or subnormals). -/
def roundDyadicToF64 (m e : ℤ) : ℤ × ℤ :=
  if m = 0 then (0, 0)
  else
    let n := m.natAbs
    let len := bitLen 200 n
    if len ≤ 53 then (m, e)
    else
      let shift := len - 53
      let q := roundHalfEven n shift
      let q2 := if bitLen 200 q = 54 then q / 2 else q
      let e2 := if bitLen 200 q = 54 then e + shift + 1 else e + shift
      (if m < 0 then -(q2 : ℤ) else (q2 : ℤ), e2)

/-- IEEE 754 binary64 multiplication of dyadic values (exact product, then
rounding). -/
def f64Mul (a b : ℤ × ℤ) : ℤ × ℤ :=
  roundDyadicToF64 (a.1 * b.1) (a.2 + b.2)

/-- IEEE 754 binary64 addition of dyadic values (exact aligned sum, then
rounding). -/
def f64Add (a b : ℤ × ℤ) : ℤ × ℤ :=
  roundDyadicToF64
    (a.1 * ((2 ^ (a.2 - min a.2 b.2).toNat : ℕ) : ℤ) +
      b.1 * ((2 ^ (b.2 - min a.2 b.2).toNat : ℕ) : ℤ))
    (min a.2 b.2)

/-- The binary64 value of the literal `0.45`:
`8106479329266893 · 2 ^ (-54)`. -/
def f64OfZeroPoint45 : ℤ × ℤ :=
  (8106479329266893, -54)

/-- The binary64 value of the literal `0.35`:
`3152519739159347 · 2 ^ (-53)`. -/
def f64OfZeroPoint35 : ℤ × ℤ :=
  (3152519739159347, -53)

/-- The binary64 value of the literal `0.2`:
`3602879701896397 · 2 ^ (-54)`. -/
def f64OfZeroPoint2 : ℤ × ℤ :=
  (3602879701896397, -54)

/-- Ten times `capacityScore * 0.45 + lineCountScore * 0.35 +
highSpeedScore * 0.2` evaluated left to right in IEEE 754 binary64 (the
integer scores are exactly representable) and then rounded to one decimal by
`toFixed(1)`.  For a non-negative double, `toFixed(1)` picks the nearest
tenth, preferring the larger at an exact tie, i.e. `⌊10·x + 1/2⌋` on the
double's exact value; because the double is dyadic it never lies exactly
half way between tenths unless it is a multiple of a quarter, where rounding
up matches the spec. -/
def f64Composite10 (cap lcs hss : ℤ) : ℤ :=
  let s :=
    f64Add (f64Add (f64Mul (cap, 0) f64OfZeroPoint45) (f64Mul (lcs, 0) f64OfZeroPoint35))
      (f64Mul (hss, 0) f64OfZeroPoint2)
  if 0 ≤ s.2 then 10 * s.1 * ((2 ^ s.2.toNat : ℕ) : ℤ)
  else
    Int.fdiv (10 * s.1 + ((2 ^ ((-s.2).toNat - 1) : ℕ) : ℤ)) ((2 ^ (-s.2).toNat : ℕ) : ℤ)

/-- The `TrainStationProfile` record of `amapRegeo.ts`.  `compositeScore10`
holds ten times the `compositeScore` float: the source value always has at
most one decimal digit (it is produced by `toFixed(1)`), so scaling by ten
represents it exactly as an integer. -/
structure TrainStationProfile where
  capacityScore : ℤ
  lineCountScore : ℤ
  lineCountEstimate : ℤ
  highSpeedScore : ℤ
  hasHighSpeedSignal : Bool
  compositeScore10 : ℤ
  reasonTags : List String
deriving DecidableEq, Repr

/-- The six name-derived booleans computed at the top of
`buildTrainStationProfile`. -/
structure TrainNameFlags where
  cityMatch : Bool
  countyLevel : Bool
  cityMainStyle : Bool
  directionalSuffix : Bool
  highSpeed : Bool
  nationalHubStyle : Bool
deriving DecidableEq, Repr

/-- The flag computations at the top of `buildTrainStationProfile` (the
normalized name is probed by each predicate; the city match requires a
non-empty normalized city token). -/
def trainNameFlags (name : String) (cityName : Option String) : TrainNameFlags :=
  let normalizedName := normalizeStationName name
  let cityToken := normalizeCityToken cityName
  { cityMatch := if cityToken = "" then false else strContains normalizedName cityToken
    countyLevel := isCountyLevelName normalizedName
    cityMainStyle := isCityMainStyleName normalizedName
    directionalSuffix := hasDirectionalStationSuffix normalizedName
    highSpeed := hasHighSpeedSignal normalizedName
    nationalHubStyle := isNationalHubStyleName normalizedName }

/-- The arithmetic part of `buildTrainStationProfile`, translated statement
by statement from the source (sequential conditional additions, clamps,
`Math.round`, `toFixed(1)`).  `Math.round` on the integral capacity sum is
the identity and is therefore omitted.  `Math.round(capacityScore / 11)` and
`Math.round(lineCountEstimate * 4.2)` are computed on the exact rationals:
the double results are never within `2 ^ (-40)` of a rounding boundary there
(`cap/11` is at least `1/22` from a half-integer and `lce·4.2` at least
`1/10`), so exact rounding is faithful.  The composite blend
`capacityScore*0.45 + lineCountScore*0.35 + highSpeedScore*0.2` does land on
exact `.05` ties at some inputs, so it is evaluated in IEEE 754 binary64 via
`f64Composite10`, exactly as the program does. -/
def buildTrainStationProfileFlags (f : TrainNameFlags) : TrainStationProfile :=
  let c1 : ℤ := if f.cityMatch then 20 + 38 else 20
  let c2 := if f.cityMainStyle then c1 + 20 else c1
  let c3 := if f.directionalSuffix then c2 + 12 else c2
  let c4 := if f.nationalHubStyle then c3 + 12 else c3
  let c5 := if f.highSpeed then c4 + 10 else c4
  let c6 := if f.countyLevel then c5 - 65 else c5
  let capacityScore := clampInt c6 0 100
  let rawLineEstimate :=
    jsRoundDiv capacityScore 11 + (if f.cityMatch then 4 else 0) +
      (if f.highSpeed then 3 else 0) + (if f.cityMainStyle then 2 else 0) -
      (if f.countyLevel then 2 else 0)
  let lineCountEstimate := clampInt rawLineEstimate 1 24
  let lineCountScore := clampInt (jsRoundDiv (lineCountEstimate * 21) 5) 0 100
  let highSpeedScore : ℤ := if f.highSpeed then 100 else 30
  let compositeScore10 := f64Composite10 capacityScore lineCountScore highSpeedScore
  { capacityScore := capacityScore
    lineCountScore := lineCountScore
    lineCountEstimate := lineCountEstimate
    highSpeedScore := highSpeedScore
    hasHighSpeedSignal := f.highSpeed
    compositeScore10 := compositeScore10
    reasonTags :=
      (if f.cityMatch then ["同城主站信号"] else []) ++
      (if f.cityMainStyle then ["主站命名"] else []) ++
      (if f.highSpeed then ["高铁信号"] else []) ++
      (if f.nationalHubStyle then ["全国级枢纽命名"] else []) ++
      (if f.countyLevel then ["县镇级命名"] else []) }

/-- `buildTrainStationProfile(name, cityName)`. -/
def buildTrainStationProfile (name : String) (cityName : Option String) : TrainStationProfile :=
  buildTrainStationProfileFlags (trainNameFlags name cityName)

/-- `1` for `true`, `0` for `false`. -/
def boolToInt (b : Bool) : ℤ :=
  if b then 1 else 0

/-- The train-station profile exactly as claim C1 states it: one clamped
linear capacity formula, the derived line-count estimate and score, the
two-valued high-speed score, the weighted composite rounded to one decimal
of its EXACT rational value (`jsRoundDiv (45·cap + 35·lcs + 20·hss) 10`),
and the reason tags in their fixed order.  The program disagrees with this
at exact `.05` ties of the blend, where its double arithmetic can round
down — see the C1 counterexample. -/
def trainStationProfileSpec (name : String) (cityName : Option String) : TrainStationProfile :=
  let f := trainNameFlags name cityName
  let capacityScore :=
    clampInt (20 + 38 * boolToInt f.cityMatch + 20 * boolToInt f.cityMainStyle +
      12 * boolToInt f.directionalSuffix + 12 * boolToInt f.nationalHubStyle +
      10 * boolToInt f.highSpeed - 65 * boolToInt f.countyLevel) 0 100
  let lineCountEstimate :=
    clampInt (jsRoundDiv capacityScore 11 + 4 * boolToInt f.cityMatch +
      3 * boolToInt f.highSpeed + 2 * boolToInt f.cityMainStyle -
      2 * boolToInt f.countyLevel) 1 24
  let lineCountScore := clampInt (jsRoundDiv (lineCountEstimate * 21) 5) 0 100
  let highSpeedScore : ℤ := if f.highSpeed then 100 else 30
  let compositeScore10 :=
    jsRoundDiv (capacityScore * 45 + lineCountScore * 35 + highSpeedScore * 20) 10
  { capacityScore := capacityScore
    lineCountScore := lineCountScore
    lineCountEstimate := lineCountEstimate
    highSpeedScore := highSpeedScore
    hasHighSpeedSignal := f.highSpeed
    compositeScore10 := compositeScore10
    reasonTags :=
      (if f.cityMatch then ["同城主站信号"] else []) ++
      (if f.cityMainStyle then ["主站命名"] else []) ++
      (if f.highSpeed then ["高铁信号"] else []) ++
      (if f.nationalHubStyle then ["全国级枢纽命名"] else []) ++
      (if f.countyLevel then ["县镇级命名"] else []) }

/-- The train-station profile as the AMENDED claim C1 states it: identical
to `trainStationProfileSpec` except that the composite is the one-decimal
rounding of the 0.45/0.35/0.20 blend as evaluated in IEEE 754 binary64
(`f64Composite10`), which at exact `.05` ties of the blend's rational value
may round to the lower tenth. -/
def trainStationProfileSpecF64 (name : String) (cityName : Option String) :
    TrainStationProfile :=
  let f := trainNameFlags name cityName
  let capacityScore :=
    clampInt (20 + 38 * boolToInt f.cityMatch + 20 * boolToInt f.cityMainStyle +
      12 * boolToInt f.directionalSuffix + 12 * boolToInt f.nationalHubStyle +
      10 * boolToInt f.highSpeed - 65 * boolToInt f.countyLevel) 0 100
  let lineCountEstimate :=
    clampInt (jsRoundDiv capacityScore 11 + 4 * boolToInt f.cityMatch +
      3 * boolToInt f.highSpeed + 2 * boolToInt f.cityMainStyle -
      2 * boolToInt f.countyLevel) 1 24
  let lineCountScore := clampInt (jsRoundDiv (lineCountEstimate * 21) 5) 0 100
  let highSpeedScore : ℤ := if f.highSpeed then 100 else 30
  let compositeScore10 := f64Composite10 capacityScore lineCountScore highSpeedScore
  { capacityScore := capacityScore
    lineCountScore := lineCountScore
    lineCountEstimate := lineCountEstimate
    highSpeedScore := highSpeedScore
    hasHighSpeedSignal := f.highSpeed
    compositeScore10 := compositeScore10
    reasonTags :=
      (if f.cityMatch then ["同城主站信号"] else []) ++
      (if f.cityMainStyle then ["主站命名"] else []) ++
      (if f.highSpeed then ["高铁信号"] else []) ++
      (if f.nationalHubStyle then ["全国级枢纽命名"] else []) ++
      (if f.countyLevel then ["县镇级命名"] else []) }

/-- A JavaScript number as produced by `Number(string)`: NaN, an infinity,
or a finite value.  Finite values are modelled as exact rationals; the
double-precision rounding of the engine is idealized away. -/
inductive JSNum where
  | nan : JSNum
  | posInf : JSNum
  | negInf : JSNum
  | fin (q : ℚ) : JSNum
deriving DecidableEq, Repr

/-- Value of a run of decimal digits. -/
def digitsToNat (ds : List Char) : ℕ :=
  ds.foldl (fun a c => 10 * a + (c.toNat - '0'.toNat)) 0

/-- Parse a full unsigned decimal literal
(`digits [. digits] [exp] | . digits [exp]`), returning all mantissa digits,
the fraction length and the exponent; `none` when the characters are not
exactly such a literal. -/
def parseUnsignedDecimal (cs : List Char) : Option (ℕ × ℕ × ℤ) :=
  let expPart : List Char → Option ℤ := fun r =>
    let digitsPart : List Char → Option ℤ := fun r2 =>
      let ds := r2.takeWhile Char.isDigit
      if ds.isEmpty then none
      else if (r2.drop ds.length).isEmpty then some (digitsToNat ds) else none
    match r with
    | [] => some 0
    | e :: r1 =>
      if e = 'e' ∨ e = 'E' then
        match r1 with
        | '+' :: r2 => digitsPart r2
        | '-' :: r2 => (digitsPart r2).map Int.neg
        | _ => digitsPart r1
      else none
  match cs with
  | '.' :: rest =>
    let fs := rest.takeWhile Char.isDigit
    if fs.isEmpty then none
    else (expPart (rest.drop fs.length)).map (fun ex => (digitsToNat fs, fs.length, ex))
  | _ =>
    let ds := cs.takeWhile Char.isDigit
    if ds.isEmpty then none
    else
      match cs.drop ds.length with
      | '.' :: rest2 =>
        let fs := rest2.takeWhile Char.isDigit
        (expPart (rest2.drop fs.length)).map
          (fun ex => (digitsToNat (ds ++ fs), fs.length, ex))
      | rest => (expPart rest).map (fun ex => (digitsToNat ds, 0, ex))

/-- The rational `±digitsAll × 10 ^ (ex − fracLen)`. -/
def qOfParts (neg : Bool) (digitsAll fracLen : ℕ) (ex : ℤ) : ℚ :=
  let e := ex - fracLen
  let n : ℤ := if neg then -(digitsAll : ℤ) else (digitsAll : ℤ)
  if 0 ≤ e then mkRat (n * ((10 ^ e.toNat : ℕ) : ℤ)) 1 else mkRat n (10 ^ (-e).toNat)

/-- Parse a full radix run (hex, octal or binary digits). -/
def parseRadixRun (isDig : Char → Bool) (toVal : Char → ℕ) (base : ℕ)
    (cs : List Char) : Option ℕ :=
  let ds := cs.takeWhile isDig
  if ds.isEmpty then none
  else if (cs.drop ds.length).isEmpty then
    some (ds.foldl (fun a c => base * a + toVal c) 0)
  else none

/-- Hex digit test. -/
def isHexDigit (c : Char) : Bool :=
  c.isDigit || decide ('a' ≤ c ∧ c ≤ 'f') || decide ('A' ≤ c ∧ c ≤ 'F')

/-- Hex digit value. -/
def hexVal (c : Char) : ℕ :=
  if c.isDigit then c.toNat - '0'.toNat
  else if decide ('a' ≤ c ∧ c ≤ 'f') then c.toNat - 'a'.toNat + 10
  else c.toNat - 'A'.toNat + 10

/-- The non-decimal forms of `StrNumericLiteral`: `0x…`, `0o…`, `0b…`
(unsigned only). -/
def parseNonDecimal (cs : List Char) : Option ℕ :=
  match cs with
  | '0' :: c :: rest =>
    if c = 'x' ∨ c = 'X' then parseRadixRun isHexDigit hexVal 16 rest
    else if c = 'o' ∨ c = 'O' then
      parseRadixRun (fun d => decide ('0' ≤ d ∧ d ≤ '7')) (fun d => d.toNat - '0'.toNat) 8 rest
    else if c = 'b' ∨ c = 'B' then
      parseRadixRun (fun d => decide (d = '0' ∨ d = '1')) (fun d => d.toNat - '0'.toNat) 2 rest
    else none
  | _ => none

/-- An optionally signed decimal literal or `Infinity`. -/
def parseSignedDecimal (cs : List Char) : JSNum :=
  let unsignedPart : Bool → List Char → JSNum := fun neg r =>
    if r = "Infinity".data then (if neg then JSNum.negInf else JSNum.posInf)
    else
      match parseUnsignedDecimal r with
      | some (dAll, fLen, ex) => JSNum.fin (qOfParts neg dAll fLen ex)
      | none => JSNum.nan
  match cs with
  | '+' :: rest => unsignedPart false rest
  | '-' :: rest => unsignedPart true rest
  | _ => unsignedPart false cs

/-- ECMAScript `Number(string)` (`StringToNumber`): trim whitespace, map the
empty remainder to `+0`, otherwise parse a numeric literal; anything else is
NaN. -/
def jsStringToNumber (s : String) : JSNum :=
  let cs := jsTrimList s.data
  if cs.isEmpty then JSNum.fin 0
  else
    match parseNonDecimal cs with
    | some n => JSNum.fin (mkRat (n : ℤ) 1)
    | none => parseSignedDecimal cs

/-- JavaScript `String.prototype.split` with a single-character separator. -/
def splitOnChar (sep : Char) : List Char → List (List Char)
  | [] => [[]]
  | c :: cs =>
    if c = sep then [] :: splitOnChar sep cs
    else
      match splitOnChar sep cs with
      | t :: ts => (c :: t) :: ts
      | [] => [[c]]

/-- `Number(token)` where a missing destructured token is `undefined`
(`Number(undefined)` is NaN). -/
def jsNumberOfToken (t : Option String) : JSNum :=
  match t with
  | none => JSNum.nan
  | some s => jsStringToNumber s

/-- `parseLocation` of `amapRegeo.ts`: split on a comma, convert the first
two tokens with `Number`, return `null` when either is NaN. -/
def parseLocation (location : String) : Option (JSNum × JSNum) :=
  let parts := (splitOnChar ',' location.data).map (fun l => (⟨l⟩ : String))
  let longitude := jsNumberOfToken (parts.get? 0)
  let latitude := jsNumberOfToken (parts.get? 1)
  if longitude = JSNum.nan ∨ latitude = JSNum.nan then none
  else some (longitude, latitude)

/-- `parseLocation` as the amended specification describes it: when the
string has at least two comma-separated tokens and the first two both
convert to non-NaN numbers, the pair of those two numbers (round-tripping
them exactly; later tokens are ignored and infinite values are accepted);
`null` otherwise. -/
def parseLocationSpec (location : String) : Option (JSNum × JSNum) :=
  match (splitOnChar ',' location.data).map (fun l => (⟨l⟩ : String)) with
  | a :: b :: _ =>
    match jsStringToNumber a, jsStringToNumber b with
    | JSNum.nan, _ => none
    | _, JSNum.nan => none
    | x, y => some (x, y)
  | _ => none

/-- The airport terminal-building words `航站楼|候机楼|卫星厅`. -/
def terminalBuildingWords : List String :=
  ["航站楼", "候机楼", "卫星厅"]

/-- The Chinese numerals of the terminal-prefix regex class `[一-十]`. -/
def chineseNumerals : List Char :=
  ['一', '二', '三', '四', '五', '六', '七', '八', '九', '十']

/-- A capital latin letter `[A-Z]`. -/
def isUpperAlpha (c : Char) : Bool :=
  decide ('A' ≤ c ∧ c ≤ 'Z')

/-- Whether one of the terminal-building words starts at the head of `cs`. -/
def startsWithBuildingWord (cs : List Char) : Bool :=
  terminalBuildingWords.any (fun w => w.data.isPrefixOf cs)

/-- `\d+(航站楼|候机楼|卫星厅)` starting at the head of `cs`.  The digit run
is taken greedily; no backtracking is needed because no building word starts
with a digit. -/
def digitsThenBuilding (cs : List Char) : Bool :=
  let ds := cs.takeWhile Char.isDigit
  decide (1 ≤ ds.length) && startsWithBuildingWord (cs.drop ds.length)

/-- `[A-Z]?\d+(航站楼|候机楼|卫星厅)` starting at the head of `cs` (either
with or without the optional capital letter). -/
def latinTerminalAt (cs : List Char) : Bool :=
  (match cs with
   | c :: rest => isUpperAlpha c && digitsThenBuilding rest
   | [] => false) ||
  digitsThenBuilding cs

/-- `[一-十1-9]号?(航站楼|候机楼|卫星厅)` starting at the head of `cs`. -/
def numeralTerminalAt (cs : List Char) : Bool :=
  match cs with
  | c :: rest =>
    (chineseNumerals.contains c || decide ('1' ≤ c ∧ c ≤ '9')) &&
      (startsWithBuildingWord rest ||
        (match rest with
         | h :: r2 => decide (h = '号') && startsWithBuildingWord r2
         | [] => false))
  | [] => false

/-- Delete the suffix starting at the leftmost position where `p` holds of
the remaining list; this is `replace(/(pattern).*/g, '')` for a pattern that
matches at least one character. -/
def stripFromFirst (p : List Char → Bool) : List Char → List Char
  | [] => []
  | c :: cs => if p (c :: cs) then [] else c :: stripFromFirst p cs

/-- The prefix of `cs` up to and including the first occurrence of `pat`
(callers guard on the occurrence existing); this is
`slice(0, indexOf(pat) + pat.length)`. -/
def takeThroughFirst (pat : List Char) : List Char → List Char
  | [] => []
  | c :: cs => if pat.isPrefixOf (c :: cs) then pat else c :: takeThroughFirst pat cs

/-- `canonicalAirportName`: truncate the normalized name just after the
first `机场`; otherwise strip terminal/satellite-building suffixes
(`replace(/([A-Z]?\d+|[一-十1-9]号?)(航站楼|候机楼|卫星厅).*​/g, '')` then
`replace(/(航站楼|候机楼|卫星厅).*​/g, '')`) and trim. -/
def canonicalAirportName (name : String) : String :=
  let normalizedName := normalizeStationName name
  let cs := normalizedName.data
  if listIsInfixOf "机场".data cs then ⟨takeThroughFirst "机场".data cs⟩
  else
    ⟨jsTrimList
      (stripFromFirst startsWithBuildingWord
        (stripFromFirst (fun t => latinTerminalAt t || numeralTerminalAt t) cs))⟩

/-- The `buildAirportScore` result record. -/
structure AirportScoreResult where
  score : ℤ
  reasonTags : List String
deriving DecidableEq, Repr

/-- Alternatives of the small/general-aviation regex
`/(通用|直升机|训练|校飞|试飞|观光|航校|产业园|航空港园区|机库|营地)/`. -/
def smallAirportKeywords : List String :=
  ["通用", "直升机", "训练", "校飞", "试飞", "观光", "航校", "产业园", "航空港园区",
   "机库", "营地"]

/-- The distance penalty of `buildAirportScore`:
`Math.min(85, Math.round(((distanceMeters ?? 120000) / 1000) * 0.65))`,
where `(d / 1000) * 0.65` is the exact rational `13 * d / 20000`. -/
def airportDistancePenalty (distanceMeters : Option ℤ) : ℤ :=
  min 85 (jsRoundDiv (13 * distanceMeters.getD 120000) 20000)

/-- The arithmetic and tag part of `buildAirportScore`, translated statement
by statement from the source, over the five name-derived booleans and the
distance penalty. -/
def airportArithSource (tokenKnown cityMatch isInternational isCommercialAirport
    isSmallAirport : Bool) (distancePenalty : ℤ) : AirportScoreResult :=
  let s1 : ℤ := if isInternational then 30 + 45 else 30
  let s2 := if isCommercialAirport then s1 + 18 else s1
  let s3 := if cityMatch then s2 + 18 else s2
  let s4 := if !cityMatch && tokenKnown then s3 - 18 else s3
  let s5 := if isSmallAirport then s4 - 70 else s4
  { score := s5 - distancePenalty
    reasonTags :=
      (if isInternational then ["国际机场"] else []) ++
      (if cityMatch then ["同城机场"]
        else if tokenKnown then ["非同城机场"] else []) ++
      (if isSmallAirport then ["疑似通用机场"] else []) ++
      ["距离扣分" ++ toString distancePenalty] }

/-- `buildAirportScore(name, cityName, distanceMeters)`.  Distances are
modelled as integers: every distance the program produces is either `null`
or a `Math.round`ed integer metre count. -/
def buildAirportScore (name : String) (cityName : Option String)
    (distanceMeters : Option ℤ) : AirportScoreResult :=
  let normalizedName := normalizeStationName name
  let cityToken := normalizeCityToken cityName
  let cityMatch := if cityToken = "" then false else strContains normalizedName cityToken
  airportArithSource (decide (cityToken ≠ "")) cityMatch
    (strContains normalizedName "国际机场")
    (strContains normalizedName "机场")
    (containsAny normalizedName smallAirportKeywords)
    (airportDistancePenalty distanceMeters)

/-- The airport score and tags as the amended specification states them:
the score is the closed linear formula, and the two city tags are mutually
exclusive with exactly one of them present precisely when a city token is
known (and neither when it is not). -/
def airportArithSpec (tokenKnown cityMatch isInternational isCommercialAirport
    isSmallAirport : Bool) (distancePenalty : ℤ) : AirportScoreResult :=
  { score :=
      30 + 45 * boolToInt isInternational + 18 * boolToInt isCommercialAirport +
        18 * boolToInt cityMatch - 18 * boolToInt (!cityMatch && tokenKnown) -
        70 * boolToInt isSmallAirport - distancePenalty
    reasonTags :=
      (if isInternational then ["国际机场"] else []) ++
      (if tokenKnown then (if cityMatch then ["同城机场"] else ["非同城机场"]) else []) ++
      (if isSmallAirport then ["疑似通用机场"] else []) ++
      ["距离扣分" ++ toString distancePenalty] }

/-- `buildAirportScoreSpec` applies the amended formula to the flags the
source computes from the name and city. -/
def buildAirportScoreSpec (name : String) (cityName : Option String)
    (distanceMeters : Option ℤ) : AirportScoreResult :=
  let normalizedName := normalizeStationName name
  let cityToken := normalizeCityToken cityName
  let cityMatch := if cityToken = "" then false else strContains normalizedName cityToken
  airportArithSpec (decide (cityToken ≠ "")) cityMatch
    (strContains normalizedName "国际机场")
    (strContains normalizedName "机场")
    (containsAny normalizedName smallAirportKeywords)
    (airportDistancePenalty distanceMeters)

/-- The hub kinds of `amapRegeo.ts`. -/
inductive HubKind where
  | subway : HubKind
  | train : HubKind
  | highspeed : HubKind
  | airport : HubKind
deriving DecidableEq, Repr

/-- The `HubCandidate` record (entries of `topCandidates`).  `score` stores
the train composite ×10 (one decimal represented exactly) for train
candidates and the integer airport score for airport candidates. -/
structure HubCandidate where
  name : String
  address : String
  distanceMeters : Option ℤ
  score : ℤ
  reasonTags : List String
deriving DecidableEq, Repr

/-- The `HubResult` record.  `highSpeedQueryHit` is optional in the source
and only ever read through boolean coercion, so it is modelled as `Bool`. -/
structure HubResult where
  kind : HubKind
  kindLabel : String
  name : String
  address : String
  distanceMeters : Option ℤ
  latitude : ℚ
  longitude : ℚ
  highSpeedQueryHit : Bool
  trainProfile : Option TrainStationProfile
  topCandidates : Option (List HubCandidate)
deriving DecidableEq, Repr

/-- `Number.MAX_SAFE_INTEGER`. -/
def maxSafeInteger : ℤ :=
  9007199254740991

/-- `d ?? Number.MAX_SAFE_INTEGER`: a missing distance compares as maximal. -/
def distVal (d : Option ℤ) : ℤ :=
  d.getD maxSafeInteger

/-- Left-pad with zeros to the given width. -/
def padZeros (w : ℕ) (s : String) : String :=
  (⟨List.replicate (w - s.length) '0'⟩ : String) ++ s

/-- `toFixed(6)`: sign of the value, then its absolute value rounded half
away from zero at the sixth decimal, printed with exactly six fraction
digits. -/
def toFixed6 (q : ℚ) : String :=
  let neg := decide (q.num < 0)
  let scaled := (2 * q.num.natAbs * 1000000 + q.den) / (2 * q.den)
  (if neg then "-" else "") ++ toString (scaled / 1000000) ++ "." ++
    padZeros 6 (toString (scaled % 1000000))

/-- The deduplication key
`item.name + "|" + item.latitude.toFixed(6) + "|" + item.longitude.toFixed(6)`. -/
def hubKey (i : HubResult) : String :=
  i.name ++ "|" ++ toFixed6 i.latitude ++ "|" ++ toFixed6 i.longitude

/-- The collision merge of `dedupeHubs`: keep the closer entry (a missing
distance counting as maximal, so strictly closer incoming replaces), and OR
the high-speed-query flags. -/
def mergeHub (existing incoming : HubResult) : HubResult :=
  let base :=
    if distVal incoming.distanceMeters < distVal existing.distanceMeters then incoming
    else existing
  { base with highSpeedQueryHit := existing.highSpeedQueryHit || incoming.highSpeedQueryHit }

/-- One `byKey.set` step of `dedupeHubs`: a JavaScript `Map` keeps the
position of an existing key and appends a new key at the end. -/
def insertHub (acc : List HubResult) (item : HubResult) : List HubResult :=
  if acc.any (fun e => decide (hubKey e = hubKey item)) then
    acc.map (fun e => if hubKey e = hubKey item then mergeHub e item else e)
  else acc ++ [item]

/-- `dedupeHubs`. -/
def dedupeHubs (items : List HubResult) : List HubResult :=
  items.foldl insertHub []

/-- All entries of `items` with deduplication key `k`. -/
def keyGroup (k : String) (items : List HubResult) : List HubResult :=
  items.filter (fun i => decide (hubKey i = k))

/-- The relation maintained while folding `insertHub` over the input: for
every key, the accumulator holds no entry when the processed prefix has
none, and otherwise exactly one entry, obtained from a minimal-distance
member of the processed prefix's key group by OR-ing in all of the group's
high-speed-query flags. -/
def DedupeInv (processed acc : List HubResult) : Prop :=
  ∀ k : String,
    (keyGroup k processed = [] → keyGroup k acc = []) ∧
    (keyGroup k processed ≠ [] →
      ∃ c hs, c ∈ keyGroup k processed ∧
        (∀ x ∈ keyGroup k processed,
          distVal c.distanceMeters ≤ distVal x.distanceMeters) ∧
        hs = (keyGroup k processed).any (fun x => x.highSpeedQueryHit) ∧
        keyGroup k acc = [{ c with highSpeedQueryHit := hs }])

/-- `item.trainProfile?.compositeScore ?? 0` (in tenths). -/
def compositeOf (i : HubResult) : ℤ :=
  match i.trainProfile with
  | some p => p.compositeScore10
  | none => 0

/-- `item.trainProfile?.lineCountEstimate` with 0 for a missing profile (the
comparator only ever sees items whose profile is present). -/
def lineCountOf (i : HubResult) : ℤ :=
  match i.trainProfile with
  | some p => p.lineCountEstimate
  | none => 0

/-- `item.trainProfile?.reasonTags ?? []`. -/
def reasonTagsOf (i : HubResult) : List String :=
  match i.trainProfile with
  | some p => p.reasonTags
  | none => []

/-- The train comparator of `pickBestTrainHub` as a total preorder: `a`
sorts no later than `b` iff `a` has the larger composite score, or equal
composites and the larger line-count estimate, or both equal and a distance
no larger (missing distance maximal). -/
def trainLe (a b : HubResult) : Prop :=
  compositeOf b < compositeOf a ∨
    (compositeOf b = compositeOf a ∧
      (lineCountOf b < lineCountOf a ∨
        (lineCountOf b = lineCountOf a ∧
          distVal a.distanceMeters ≤ distVal b.distanceMeters)))

instance (a b : HubResult) : Decidable (trainLe a b) :=
  inferInstanceAs (Decidable (compositeOf b < compositeOf a ∨
    (compositeOf b = compositeOf a ∧
      (lineCountOf b < lineCountOf a ∨
        (lineCountOf b = lineCountOf a ∧
          distVal a.distanceMeters ≤ distVal b.distanceMeters)))))

instance : IsTotal HubResult trainLe :=
  ⟨fun a b => by unfold trainLe; omega⟩

instance : IsTrans HubResult trainLe :=
  ⟨fun a b c hab hbc => by unfold trainLe at hab hbc ⊢; omega⟩

/-- The ascending-distance comparator used inside airport groups. -/
def distLe (a b : HubResult) : Prop :=
  distVal a.distanceMeters ≤ distVal b.distanceMeters

instance (a b : HubResult) : Decidable (distLe a b) :=
  inferInstanceAs (Decidable (distVal a.distanceMeters ≤ distVal b.distanceMeters))

instance : IsTotal HubResult distLe :=
  ⟨fun a b => by unfold distLe; omega⟩

instance : IsTrans HubResult distLe :=
  ⟨fun a b c hab hbc => by unfold distLe at hab hbc ⊢; omega⟩

/-- The airport comparator over scored rows: larger score first, ties by
ascending distance. -/
def airLe (a b : HubResult × AirportScoreResult) : Prop :=
  b.2.score < a.2.score ∨
    (b.2.score = a.2.score ∧ distVal a.1.distanceMeters ≤ distVal b.1.distanceMeters)

instance (a b : HubResult × AirportScoreResult) : Decidable (airLe a b) :=
  inferInstanceAs (Decidable (b.2.score < a.2.score ∨
    (b.2.score = a.2.score ∧ distVal a.1.distanceMeters ≤ distVal b.1.distanceMeters)))

instance : IsTotal (HubResult × AirportScoreResult) airLe :=
  ⟨fun a b => by unfold airLe; omega⟩

instance : IsTrans (HubResult × AirportScoreResult) airLe :=
  ⟨fun a b c hab hbc => by unfold airLe at hab hbc ⊢; omega⟩

/-- The pre-filter stage of `pickBestTrainHub`: drop county-level names when
at least three candidates remain without them, then, when at least two
candidates contain the city token, move those ahead of the rest (a stable
reordering, not a filter). -/
def trainWorking (candidates : List HubResult) (cityName : Option String) : List HubResult :=
  let cityToken := normalizeCityToken cityName
  let nonCounty := candidates.filter (fun item => !isCountyLevelName item.name)
  let working1 := if 3 ≤ nonCounty.length then nonCounty else candidates
  if cityToken = "" then working1
  else
    let cityNamed :=
      working1.filter (fun item => strContains (normalizeStationName item.name) cityToken)
    if 2 ≤ cityNamed.length then
      cityNamed ++
        working1.filter (fun item => !strContains (normalizeStationName item.name) cityToken)
    else working1

/-- The `rankedSource` stage: attach a freshly computed profile to every
surviving candidate. -/
def trainRankedSource (candidates : List HubResult) (cityName : Option String) :
    List HubResult :=
  (trainWorking candidates cityName).map (fun item =>
    { item with trainProfile := some (buildTrainStationProfile item.name cityName) })

/-- The `filteredSource` stage: with `highSpeedOnly`, keep only candidates
whose profile has the high-speed signal and whose fetch-time
`highSpeedQueryHit` flag is set. -/
def trainFiltered (candidates : List HubResult) (cityName : Option String)
    (highSpeedOnly : Bool) : List HubResult :=
  if highSpeedOnly then
    (trainRankedSource candidates cityName).filter (fun item =>
      (match item.trainProfile with
       | some p => p.hasHighSpeedSignal
       | none => false) && item.highSpeedQueryHit)
  else trainRankedSource candidates cityName

/-- The `ranked` stage: the stable sort of the filtered candidates by the
train comparator (a stable sort with respect to the same total preorder
computes the same list as the JavaScript `Array.prototype.sort`, which is
stable). -/
def trainRanked (candidates : List HubResult) (cityName : Option String)
    (highSpeedOnly : Bool) : List HubResult :=
  List.insertionSort trainLe (trainFiltered candidates cityName highSpeedOnly)

/-- The projection of a ranked train candidate onto a `HubCandidate` row. -/
def trainCandidateRow (item : HubResult) : HubCandidate :=
  { name := item.name, address := item.address, distanceMeters := item.distanceMeters,
    score := compositeOf item, reasonTags := reasonTagsOf item }

/-- The `topCandidates` stage: the first three ranked candidates. -/
def trainTopCandidates (candidates : List HubResult) (cityName : Option String)
    (highSpeedOnly : Bool) : List HubCandidate :=
  ((trainRanked candidates cityName highSpeedOnly).take 3).map trainCandidateRow

/-- `pickBestTrainHub(candidates, cityName, { highSpeedOnly })`. -/
def pickBestTrainHub (candidates : List HubResult) (cityName : Option String)
    (highSpeedOnly : Bool) : Option HubResult :=
  if candidates.isEmpty then none
  else if (trainFiltered candidates cityName highSpeedOnly).isEmpty then none
  else
    match (trainRanked candidates cityName highSpeedOnly).head? with
    | none => none
    | some primary =>
      some { primary with
        topCandidates := some (trainTopCandidates candidates cityName highSpeedOnly) }

/-- First-occurrence-ordered distinct keys (a JavaScript `Map` keeps keys in
insertion order). -/
def distinctKeysAux (seen : List String) : List String → List String
  | [] => []
  | k :: ks => if k ∈ seen then distinctKeysAux seen ks else k :: distinctKeysAux (k :: seen) ks

/-- The canonical-name group of `k` inside `pickBestAirportHub`. -/
def airportGroupFor (candidates : List HubResult) (k : String) : List HubResult :=
  candidates.filter (fun i => decide (canonicalAirportName i.name = k))

/-- The representative of a canonical-name group: the head of the group
sorted by ascending distance (missing distance maximal), i.e. its
nearest member. -/
def airportGroupRep (candidates : List HubResult) (k : String) : Option HubResult :=
  (List.insertionSort distLe (airportGroupFor candidates k)).head?

/-- The `working` stage of `pickBestAirportHub`: one nearest representative
per canonical name, in first-occurrence key order. -/
def airportWorking (candidates : List HubResult) : List HubResult :=
  (distinctKeysAux [] (candidates.map (fun i => canonicalAirportName i.name))).filterMap
    (fun k => airportGroupRep candidates k)

/-- The `ranked` stage of `pickBestAirportHub`: representatives paired with
their scores, stably sorted by the airport comparator. -/
def airportRanked (candidates : List HubResult) (cityName : Option String) :
    List (HubResult × AirportScoreResult) :=
  List.insertionSort airLe ((airportWorking candidates).map (fun item =>
    (item, buildAirportScore item.name cityName item.distanceMeters)))

/-- The projection of a scored airport row onto a `HubCandidate` row. -/
def airportCandidateRow (row : HubResult × AirportScoreResult) : HubCandidate :=
  { name := row.1.name, address := row.1.address, distanceMeters := row.1.distanceMeters,
    score := row.2.score, reasonTags := row.2.reasonTags }

/-- The `topCandidates` stage of `pickBestAirportHub`. -/
def airportTopCandidates (candidates : List HubResult) (cityName : Option String) :
    List HubCandidate :=
  ((airportRanked candidates cityName).take 3).map airportCandidateRow

/-- `pickBestAirportHub(candidates, cityName)`. -/
def pickBestAirportHub (candidates : List HubResult) (cityName : Option String) :
    Option HubResult :=
  if candidates.isEmpty then none
  else
    match (airportRanked candidates cityName).head? with
    | none => none
    | some row =>
      some { row.1 with topCandidates := some (airportTopCandidates candidates cityName) }

/-- The `AmapApiError` class: a message plus an optional provider error
code. -/
structure AmapApiError where
  message : String
  code : Option String
deriving DecidableEq, Repr

/-- The raw `Poi` record of `amapRegeo.ts` (all fields optional). -/
structure Poi where
  id : Option String
  name : Option String
  address : Option String
  distance : Option String
  location : Option String
  type : Option String
  typecode : Option String
deriving DecidableEq, Repr

/-- One network exchange as seen by `fetchAroundPois`: whether the transport
succeeded (`response.ok`), the HTTP status used in the failure message, and
the decoded provider body.  The embedding abstracts the network: the
function is modelled as a function of the response it receives. -/
structure AroundResponse where
  ok : Bool
  httpStatus : ℕ
  status : String
  info : Option String
  infocode : Option String
  pois : List Poi
deriving DecidableEq, Repr

/-- `fetchAroundPois`: a non-ok transport response throws an `AmapApiError`
without a code; a provider status other than `'1'` throws an `AmapApiError`
carrying the provider's `infocode`; otherwise the POI list is returned. -/
def fetchAroundPois (r : AroundResponse) : Except AmapApiError (List Poi) :=
  if r.ok = false then
    Except.error { message := "高德请求失败: " ++ toString r.httpStatus, code := none }
  else if r.status ≠ "1" then
    Except.error
      { message := "高德接口错误: " ++ r.info.getD "unknown" ++ " (" ++
          r.infocode.getD "n/a" ++ ")",
        code := r.infocode }
  else Except.ok r.pois

/-- The raw input-tip record of the suggestion resolver. -/
structure RawTip where
  id : Option String
  name : Option String
  district : Option String
  address : Option String
  location : Option String
deriving DecidableEq, Repr

/-- The raw text-search POI record of the suggestion resolver. -/
structure RawSuggestionPoi where
  id : Option String
  name : Option String
  address : Option String
  pname : Option String
  cityname : Option String
  adname : Option String
  location : Option String
deriving DecidableEq, Repr

/-- The `AddressSuggestion` record. -/
structure AddressSuggestion where
  id : String
  name : String
  address : String
  latitude : JSNum
  longitude : JSNum
deriving DecidableEq, Repr

/-- The decoded body of one text-search call inside
`fetchAddressSuggestions`. -/
structure TextResponse where
  ok : Bool
  status : String
  infocode : Option String
  pois : List RawSuggestionPoi
deriving DecidableEq, Repr

/-- The decoded body of the input-tips call inside
`fetchAddressSuggestions`. -/
structure TipsResponse where
  ok : Bool
  status : String
  tips : List RawTip
deriving DecidableEq, Repr

instance {ε α : Type} [DecidableEq ε] [DecidableEq α] : DecidableEq (Except ε α) :=
  fun x y =>
    match x, y with
    | Except.ok a, Except.ok b =>
      if h : a = b then isTrue (by rw [h])
      else isFalse (fun hc => h (Except.ok.inj hc))
    | Except.error a, Except.error b =>
      if h : a = b then isTrue (by rw [h])
      else isFalse (fun hc => h (Except.error.inj hc))
    | Except.ok _, Except.error _ => isFalse (fun hc => Except.noConfusion hc)
    | Except.error _, Except.ok _ => isFalse (fun hc => Except.noConfusion hc)

/-- The suggestion module's `parseLocation`: it additionally rejects a
missing or empty location string, then behaves as the shared parser. -/
def parseLocationOpt (location : Option String) : Option (JSNum × JSNum) :=
  match location with
  | none => none
  | some s => if s = "" then none else parseLocation s

/-- `[parts].filter(Boolean).join(' ')`. -/
def joinAddressParts (parts : List (Option String)) : String :=
  String.intercalate " " ((parts.filterMap id).filter (fun s => !(s == "")))

/-- Map one raw text-search POI to a suggestion, dropping records without a
parseable location or a non-empty name. -/
def mapSuggestionPoi (p : RawSuggestionPoi) : Option AddressSuggestion :=
  match parseLocationOpt p.location with
  | none => none
  | some point =>
    match p.name with
    | none => none
    | some nm =>
      if nm = "" then none
      else
        some
          { id := p.id.getD (nm ++ "-" ++ p.location.getD ""),
            name := nm,
            address :=
              (fun a => if a = "" then "未知地址" else a)
                (joinAddressParts [p.pname, p.cityname, p.adname, p.address]),
            latitude := point.2,
            longitude := point.1 }

/-- Map one raw input tip to a suggestion. -/
def mapSuggestionTip (t : RawTip) : Option AddressSuggestion :=
  match parseLocationOpt t.location with
  | none => none
  | some point =>
    match t.name with
    | none => none
    | some nm =>
      if nm = "" then none
      else
        some
          { id := t.id.getD (nm ++ "-" ++ t.location.getD ""),
            name := nm,
            address :=
              (fun a => if a = "" then "未知地址" else a)
                (joinAddressParts [t.district, t.address]),
            latitude := point.2,
            longitude := point.1 }

/-- The process-wide suggestion cache, as an association list whose newest
entry for a key shadows older ones. -/
def cacheLookup (cache : List (String × List AddressSuggestion)) (k : String) :
    Option (List AddressSuggestion) :=
  (cache.find? (fun e => e.1 == k)).map Prod.snd

/-- The hotel-brand alternatives of `HOTEL_BRAND_REGEX`. -/
def hotelBrandKeywords : List String :=
  ["汉庭", "如家", "全季", "亚朵", "锦江", "7天", "格林豪泰", "维也纳", "桔子", "喆啡", "酒店"]

/-- The outcome of the keyword-variant text-search loop: either an early
`return quickCache` triggered by rate-limit code 10021, or the final
`poiList` with which the function continues. -/
inductive TextLoopOutcome where
  | earlyReturn (suggestions : List AddressSuggestion) : TextLoopOutcome
  | finished (poiList : List AddressSuggestion) : TextLoopOutcome
deriving DecidableEq, Repr

/-- `toFixed(6)` on a JavaScript number, as used in suggestion dedupe keys. -/
def jsNumToFixed6 : JSNum → String
  | JSNum.nan => "NaN"
  | JSNum.posInf => "Infinity"
  | JSNum.negInf => "-Infinity"
  | JSNum.fin q => toFixed6 q

/-- The suggestion dedupe key `name|lat.toFixed(6)|lon.toFixed(6)`. -/
def suggKey (s : AddressSuggestion) : String :=
  s.name ++ "|" ++ jsNumToFixed6 s.latitude ++ "|" ++ jsNumToFixed6 s.longitude

/-- The text-search loop of `fetchAddressSuggestions` (part of the
suggestion resolver with cache and hotel-brand variants), one iteration per
keyword variant, each consuming the next supplied response; a missing
response behaves like a transport failure.  A non-ok response `continue`s
(skipping the break check); a success REPLACES `poiList`; provider code
10021 consults the cache and returns it when non-empty; afterwards the loop
breaks once `poiList` has reached `limit` entries. -/
def textSearchLoop (cache : List (String × List AddressSuggestion)) (cacheKey : String)
    (limit : ℕ) :
    List String → List TextResponse → List AddressSuggestion → TextLoopOutcome
  | [], _, poiList => TextLoopOutcome.finished poiList
  | _ :: restVariants, responses, poiList =>
    match responses with
    | [] => textSearchLoop cache cacheKey limit restVariants [] poiList
    | r :: restResponses =>
      if r.ok = false then
        textSearchLoop cache cacheKey limit restVariants restResponses poiList
      else if r.status = "1" then
        (fun poiList' =>
          if limit ≤ poiList'.length then TextLoopOutcome.finished poiList'
          else textSearchLoop cache cacheKey limit restVariants restResponses poiList')
          (r.pois.filterMap mapSuggestionPoi)
      else
        match (if r.infocode = some "10021" then
            match cacheLookup cache cacheKey with
            | some l => if l.isEmpty then none else some l
            | none => none
          else none) with
        | some quickCache => TextLoopOutcome.earlyReturn quickCache
        | none =>
          if limit ≤ poiList.length then TextLoopOutcome.finished poiList
          else textSearchLoop cache cacheKey limit restVariants restResponses poiList

/-- The final dedupe of `fetchAddressSuggestions`: first occurrence of each
`suggKey` wins, stopping once `limit` entries have been kept. -/
def dedupeSuggestions (limit : ℕ) :
    List AddressSuggestion → List String → List AddressSuggestion → List AddressSuggestion
  | [], _, acc => acc.reverse
  | i :: rest, seen, acc =>
    if suggKey i ∈ seen then dedupeSuggestions limit rest seen acc
    else
      if limit ≤ (i :: acc).length then (i :: acc).reverse
      else dedupeSuggestions limit rest (suggKey i :: seen) (i :: acc)

/-- The single error `fetchAddressSuggestions` can throw itself (it carries
no provider code). -/
def noCandidatesError : AmapApiError :=
  { message := "暂无可用候选，请稍后重试或补充关键词", code := none }

/-- The suggestion cache key `trimmed|city|limit`. -/
def suggCacheKey (keyword : String) (city : Option String) (limit : ℕ) : String :=
  jsTrim keyword ++ "|" ++ city.getD "" ++ "|" ++ toString limit

/-- The tail of `fetchAddressSuggestions`: throw the no-candidates error on
an empty deduplicated list, otherwise store it in the cache and return it. -/
def finishSuggestions (cacheKey : String) (cache : List (String × List AddressSuggestion))
    (deduped : List AddressSuggestion) :
    Except AmapApiError (List AddressSuggestion × List (String × List AddressSuggestion)) :=
  if deduped.isEmpty then Except.error noCandidatesError
  else Except.ok (deduped, (cacheKey, deduped) :: cache)

/-- `fetchAddressSuggestions` of the cache-and-hotel-brand suggestion
resolver, as a function of the supplied network responses.  Transport and
provider failures of the individual calls are absorbed (`continue`, silent
fallthrough, and a try/catch around the tips call); the only thrown error is
`noCandidatesError` when nothing usable remains. -/
def fetchAddressSuggestions (cache : List (String × List AddressSuggestion))
    (keyword : String) (city : Option String) (limit : ℕ)
    (textResponses : List TextResponse) (tipsResponse : TipsResponse) :
    Except AmapApiError (List AddressSuggestion × List (String × List AddressSuggestion)) :=
  if jsTrim keyword = "" then Except.ok ([], cache)
  else
    match (match cacheLookup cache (suggCacheKey keyword city limit) with
      | some cached => if cached.isEmpty then none else some cached
      | none => (none : Option (List AddressSuggestion))) with
    | some cached => Except.ok (cached, cache)
    | none =>
      match textSearchLoop cache (suggCacheKey keyword city limit) limit
        (if containsAny (jsTrim keyword) hotelBrandKeywords then
          [jsTrim keyword, jsTrim keyword ++ "酒店"]
        else [jsTrim keyword]) textResponses [] with
      | TextLoopOutcome.earlyReturn l => Except.ok (l, cache)
      | TextLoopOutcome.finished poiList =>
        finishSuggestions (suggCacheKey keyword city limit) cache
          (dedupeSuggestions limit
            ((if tipsResponse.ok = true ∧ tipsResponse.status = "1" then
              tipsResponse.tips.filterMap mapSuggestionTip
            else []) ++ poiList) [] [])

/-- The suggestion half of claim C9 as stated: under a non-blank keyword
(and a cache miss, so that the first text-search call is actually issued), a
transport-level failure of that call always propagates to the caller as an
`AmapApiError`. -/
def c9SuggestionClaim : Prop :=
  ∀ (cache : List (String × List AddressSuggestion)) (keyword : String)
    (city : Option String) (limit : ℕ) (t : TextResponse)
    (ts : List TextResponse) (tips : TipsResponse),
    jsTrim keyword ≠ "" →
    cacheLookup cache (suggCacheKey keyword city limit) = none →
    t.ok = false →
    ∃ e, fetchAddressSuggestions cache keyword city limit (t :: ts) tips =
      Except.error e

/-- The farther entry of the C4 witness. -/
def c4ItemFar : HubResult :=
  { kind := HubKind.train, kindLabel := "火车站", name := "北京西站", address := "甲",
    distanceMeters := some 9000, latitude := 0, longitude := 0, highSpeedQueryHit := false,
    trainProfile := none, topCandidates := none }

/-- The nearer entry of the C4 witness (same key, closer, high-speed hit). -/
def c4ItemNear : HubResult :=
  { kind := HubKind.train, kindLabel := "火车站", name := "北京西站", address := "乙",
    distanceMeters := some 4000, latitude := 0, longitude := 0, highSpeedQueryHit := true,
    trainProfile := none, topCandidates := none }

/-- The one-candidate input list of the C5 train witness. -/
def c5TrainInput : List HubResult :=
  [{ kind := HubKind.train, kindLabel := "火车站", name := "北京南站", address := "",
     distanceMeters := some 1000, latitude := 0, longitude := 0,
     highSpeedQueryHit := true, trainProfile := none, topCandidates := none }]

/-- The one-candidate input list of the C5 airport witness. -/
def c5AirportInput : List HubResult :=
  [{ kind := HubKind.airport, kindLabel := "机场", name := "浦东国际机场", address := "",
     distanceMeters := some 30000, latitude := 0, longitude := 0,
     highSpeedQueryHit := false, trainProfile := none, topCandidates := none }]

/-- The train result the C5 witness instantiates the invariant at. -/
def c5TrainWitnessResult : HubResult :=
  { kind := HubKind.train, kindLabel := "火车站", name := "北京南站", address := "",
    distanceMeters := some 1000, latitude := 0, longitude := 0, highSpeedQueryHit := true,
    trainProfile := some
      { capacityScore := 74, lineCountScore := 50, lineCountEstimate := 12,
        highSpeedScore := 100, hasHighSpeedSignal := true, compositeScore10 := 708,
        reasonTags := ["主站命名", "高铁信号", "全国级枢纽命名"] },
    topCandidates := some
      [{ name := "北京南站", address := "", distanceMeters := some 1000, score := 708,
         reasonTags := ["主站命名", "高铁信号", "全国级枢纽命名"] }] }

/-- The airport result the C5 witness instantiates the invariant at. -/
def c5AirportWitnessResult : HubResult :=
  { kind := HubKind.airport, kindLabel := "机场", name := "浦东国际机场", address := "",
    distanceMeters := some 30000, latitude := 0, longitude := 0, highSpeedQueryHit := false,
    trainProfile := none,
    topCandidates := some
      [{ name := "浦东国际机场", address := "", distanceMeters := some 30000, score := 55,
         reasonTags := ["国际机场", "非同城机场", "距离扣分20"] }] }

/-- The two terminal entries of the C8 witness. -/
def c8TerminalOne : HubResult :=
  { kind := HubKind.airport, kindLabel := "机场", name := "浦东国际机场T1航站楼",
    address := "", distanceMeters := some 5000, latitude := 0, longitude := 0,
    highSpeedQueryHit := false, trainProfile := none, topCandidates := none }

/-- The second terminal entry of the C8 witness. -/
def c8TerminalTwo : HubResult :=
  { kind := HubKind.airport, kindLabel := "机场", name := "浦东国际机场T2",
    address := "", distanceMeters := some 9000, latitude := 0, longitude := 0,
    highSpeedQueryHit := false, trainProfile := none, topCandidates := none }

/-- For any combination of the six name flags the sequential computation of
the source equals the closed formulas of the amended specification (the
composite computed by the binary64 blend). -/
theorem buildTrainStationProfileFlags_eq_formula (f : TrainNameFlags) :
    buildTrainStationProfileFlags f =
      (let capacityScore :=
        clampInt (20 + 38 * boolToInt f.cityMatch + 20 * boolToInt f.cityMainStyle +
          12 * boolToInt f.directionalSuffix + 12 * boolToInt f.nationalHubStyle +
          10 * boolToInt f.highSpeed - 65 * boolToInt f.countyLevel) 0 100
      let lineCountEstimate :=
        clampInt (jsRoundDiv capacityScore 11 + 4 * boolToInt f.cityMatch +
          3 * boolToInt f.highSpeed + 2 * boolToInt f.cityMainStyle -
          2 * boolToInt f.countyLevel) 1 24
      let lineCountScore := clampInt (jsRoundDiv (lineCountEstimate * 21) 5) 0 100
      let highSpeedScore : ℤ := if f.highSpeed then 100 else 30
      { capacityScore := capacityScore
        lineCountScore := lineCountScore
        lineCountEstimate := lineCountEstimate
        highSpeedScore := highSpeedScore
        hasHighSpeedSignal := f.highSpeed
        compositeScore10 := f64Composite10 capacityScore lineCountScore highSpeedScore
        reasonTags :=
          (if f.cityMatch then ["同城主站信号"] else []) ++
          (if f.cityMainStyle then ["主站命名"] else []) ++
          (if f.highSpeed then ["高铁信号"] else []) ++
          (if f.nationalHubStyle then ["全国级枢纽命名"] else []) ++
          (if f.countyLevel then ["县镇级命名"] else []) }) := by
  rcases f with ⟨m, t, s, d, h, n⟩
  cases m <;> cases t <;> cases s <;> cases d <;> cases h <;> cases n <;> decide

/-- C7 counterexample: `"1,2,3"` has three comma-separated tokens, yet
`parseLocation` does not return `null`: it returns the pair `(1, 2)`,
refuting the claim that any string without exactly two tokens maps to
`null`. -/
theorem claim_C7_counterexample :
    (splitOnChar ',' ("1,2,3" : String).data).length = 3 ∧
      parseLocation "1,2,3" = some (JSNum.fin 1, JSNum.fin 2) ∧
      ¬ parseLocation "1,2,3" = none := by
  refine ⟨by decide, by decide, by decide⟩

/-- C7 (amended): for every string, `parseLocation` returns the pair of the
numbers converted from the first two comma-separated tokens exactly when at
least two tokens exist and both convert to non-NaN numbers (later tokens
ignored, infinities accepted), and `null` otherwise. -/
theorem claim_C7_parseLocation_spec (location : String) :
    parseLocation location = parseLocationSpec location := by
  unfold parseLocation parseLocationSpec
  cases hp : (splitOnChar ',' location.data).map (fun l => (⟨l⟩ : String)) with
  | nil => simp [jsNumberOfToken]
  | cons a t =>
    cases t with
    | nil => simp [jsNumberOfToken]
    | cons b t2 =>
      cases hx : jsStringToNumber a <;> cases hy : jsStringToNumber b <;>
        simp [jsNumberOfToken, hx, hy]

theorem airportArith_eq_spec (tokenKnown cityMatch isInternational isCommercialAirport
    isSmallAirport : Bool) (hp : cityMatch = true → tokenKnown = true)
    (distancePenalty : ℤ) :
    airportArithSource tokenKnown cityMatch isInternational isCommercialAirport
        isSmallAirport distancePenalty =
      airportArithSpec tokenKnown cityMatch isInternational isCommercialAirport
        isSmallAirport distancePenalty := by
  cases tokenKnown <;> cases cityMatch <;> cases isInternational <;>
    cases isCommercialAirport <;> cases isSmallAirport <;>
    simp_all [airportArithSource, airportArithSpec, AirportScoreResult.mk.injEq,
      boolToInt]

/-- A city match can only hold when the city token is non-empty. -/
theorem cityMatch_imp_tokenKnown (normalizedName cityToken : String) :
    (if cityToken = "" then false else strContains normalizedName cityToken) = true →
      decide (cityToken ≠ "") = true := by
  by_cases h : cityToken = "" <;> simp [h]

/-- C3 counterexample: for the airport name 虹桥机场 with no city name and
distance 1000 m, the reason tags contain neither the city-match tag 同城机场
nor the non-city-match tag 非同城机场, refuting the claim that exactly one of
the two always appears. -/
theorem claim_C3_counterexample :
    ¬ ("同城机场" ∈ (buildAirportScore "虹桥机场" none (some 1000)).reasonTags ∨
       "非同城机场" ∈ (buildAirportScore "虹桥机场" none (some 1000)).reasonTags) := by
  decide

/-- C3 (amended): for every airport name, optional city name and distance,
`buildAirportScore` returns the score
`30 + 45·international + 18·genericAirport + 18·cityMatch − 18·(token known
but no match) − 70·smallAirport − min(85, round((d ?? 120000)/1000 · 0.65))`
and reason tags consisting of the international tag when international,
exactly one of 同城机场/非同城机场 when a city token is known (and neither
otherwise), the small-airport tag when that signal holds, and finally the
距离扣分 tag with the penalty. -/
theorem claim_C3_buildAirportScore_spec (name : String) (cityName : Option String)
    (distanceMeters : Option ℤ) :
    buildAirportScore name cityName distanceMeters =
      buildAirportScoreSpec name cityName distanceMeters :=
  airportArith_eq_spec _ _ _ _ _
    (cityMatch_imp_tokenKnown (normalizeStationName name) (normalizeCityToken cityName))
    (airportDistancePenalty distanceMeters)

theorem airportDistancePenalty_bounds (d : Option ℤ)
    (hd : d = none ∨ ∃ k, d = some k ∧ 0 ≤ k) :
    0 ≤ airportDistancePenalty d ∧ airportDistancePenalty d ≤ 85 := by
  have hval : 0 ≤ 13 * d.getD 120000 := by
    rcases hd with h | ⟨k, hk, hk0⟩
    · simp [h]
    · simp [hk]; omega
  have hr : 0 ≤ jsRoundDiv (13 * d.getD 120000) 20000 := by
    have := Int.fdiv_nonneg (a := 2 * (13 * d.getD 120000) + 20000) (b := 2 * 20000)
      (by omega) (by omega)
    simpa [jsRoundDiv] using this
  constructor
  · exact le_min (by omega) hr
  · exact min_le_left _ _

theorem airportArithSource_score_bounds (tk cm intl comm small : Bool) (p : ℤ)
    (hp0 : 0 ≤ p) (hp85 : p ≤ 85) :
    -143 ≤ (airportArithSource tk cm intl comm small p).score ∧
      (airportArithSource tk cm intl comm small p).score ≤ 111 := by
  cases tk <;> cases cm <;> cases intl <;> cases comm <;> cases small <;>
    simp [airportArithSource] <;> omega

/-- C10: for every airport name, optional city name and distance that is
null or non-negative, the airport score lies in `[-143, 111]`; it is not
clamped to `[0, 100]`: for 航校训练基地 queried from 北京 at 200 km the score
is −143, strictly negative. -/
theorem claim_C10_airportScore_range :
    (∀ (name : String) (cityName : Option String) (d : Option ℤ),
      (d = none ∨ ∃ k, d = some k ∧ 0 ≤ k) →
        -143 ≤ (buildAirportScore name cityName d).score ∧
          (buildAirportScore name cityName d).score ≤ 111) ∧
    (buildAirportScore "航校训练基地" (some "北京") (some 200000)).score = -143 := by
  constructor
  · intro name cityName d hd
    obtain ⟨h0, h85⟩ := airportDistancePenalty_bounds d hd
    exact airportArithSource_score_bounds _ _ _ _ _ _ h0 h85
  · decide

/-- Witness for C10: the bounds applied at a concrete airport and distance. -/
theorem claim_C10_airportScore_range_witness :
    -143 ≤ (buildAirportScore "浦东国际机场" (some "上海") (some 1000)).score ∧
      (buildAirportScore "浦东国际机场" (some "上海") (some 1000)).score ≤ 111 :=
  claim_C10_airportScore_range.1 "浦东国际机场" (some "上海") (some 1000)
    (Or.inr ⟨1000, rfl, by omega⟩)

theorem hubKey_set_hsHit (x : HubResult) (b : Bool) :
    hubKey { x with highSpeedQueryHit := b } = hubKey x := rfl

theorem hubKey_mergeHub (e it : HubResult) (h : hubKey e = hubKey it) :
    hubKey (mergeHub e it) = hubKey it := by
  unfold mergeHub
  split
  · exact hubKey_set_hsHit it _
  · rw [hubKey_set_hsHit]; exact h

theorem filter_map_eq_filter (f : HubResult → HubResult) (p : HubResult → Bool)
    (l : List HubResult)
    (h : ∀ e ∈ l, (p e = true → f e = e) ∧ (p e = false → p (f e) = false)) :
    (l.map f).filter p = l.filter p := by
  induction l with
  | nil => rfl
  | cons x xs ih =>
    have hx := h x (List.mem_cons_self x xs)
    have ih' := ih (fun e he => h e (List.mem_cons_of_mem x he))
    cases hp : p x with
    | true => simp [List.filter_cons, hx.1 hp, hp, ih']
    | false => simp [List.filter_cons, hp, hx.2 hp, ih']

theorem filter_map_comm (f : HubResult → HubResult) (p : HubResult → Bool)
    (l : List HubResult) (h : ∀ e ∈ l, p (f e) = p e) :
    (l.map f).filter p = (l.filter p).map f := by
  induction l with
  | nil => rfl
  | cons x xs ih =>
    have hx := h x (List.mem_cons_self x xs)
    have ih' := ih (fun e he => h e (List.mem_cons_of_mem x he))
    cases hp : p x with
    | true => simp [List.filter_cons, hx, hp, ih']
    | false => simp [List.filter_cons, hx, hp, ih']

theorem any_key_iff (acc : List HubResult) (k : String) :
    acc.any (fun e => decide (hubKey e = k)) = true ↔ keyGroup k acc ≠ [] := by
  rw [List.any_eq_true]
  constructor
  · rintro ⟨e, he, hke⟩ hnil
    have hmem : e ∈ keyGroup k acc := List.mem_filter.mpr ⟨he, hke⟩
    rw [hnil] at hmem
    exact List.not_mem_nil e hmem
  · intro hne
    cases hg : keyGroup k acc with
    | nil => exact absurd hg hne
    | cons e t =>
      have he : e ∈ keyGroup k acc := by rw [hg]; exact List.mem_cons_self e t
      have := List.mem_filter.mp he
      exact ⟨e, this.1, this.2⟩

theorem dedupeInv_nil : DedupeInv [] [] := by
  intro k
  exact ⟨fun _ => rfl, fun h => absurd rfl h⟩

theorem dedupeInv_step (ps acc : List HubResult) (it : HubResult)
    (h : DedupeInv ps acc) : DedupeInv (ps ++ [it]) (insertHub acc it) := by
  intro k
  have hps := h k
  by_cases hk : hubKey it = k
  · -- the new item belongs to key `k`
    have hgroup : keyGroup k (ps ++ [it]) = keyGroup k ps ++ [it] := by
      simp [keyGroup, List.filter_append, hk]
    by_cases hgp : keyGroup k ps = []
    · -- first entry with this key: `insertHub` appends
      have hacc0 : keyGroup k acc = [] := hps.1 hgp
      have hany : acc.any (fun e => decide (hubKey e = hubKey it)) = false := by
        rw [← Bool.not_eq_true]
        intro hcontra
        exact (any_key_iff acc (hubKey it)).mp hcontra (by rw [hk]; exact hacc0)
      constructor
      · intro hcontra
        rw [hgroup] at hcontra
        simp at hcontra
      · intro _
        refine ⟨it, it.highSpeedQueryHit, ?_, ?_, ?_, ?_⟩
        · rw [hgroup]
          exact List.mem_append_right _ (List.mem_singleton.mpr rfl)
        · intro x hx
          rw [hgroup, hgp] at hx
          simp at hx
          subst hx
          exact le_refl _
        · rw [hgroup, hgp]
          simp
        · unfold insertHub
          rw [if_neg (by simp [hany])]
          have heta : ({ it with highSpeedQueryHit := it.highSpeedQueryHit } : HubResult) = it := rfl
          rw [heta]
          have hsplit : keyGroup k (acc ++ [it]) = keyGroup k acc ++ keyGroup k [it] := by
            simp [keyGroup, List.filter_append]
          rw [hsplit, hacc0]
          simp [keyGroup, hk]
    · -- the key already exists: `insertHub` merges in place
      obtain ⟨c, hs, hcmem, hcmin, hhs, hgacc⟩ := hps.2 hgp
      have hany : acc.any (fun e => decide (hubKey e = hubKey it)) = true := by
        apply (any_key_iff acc (hubKey it)).mpr
        rw [hk, hgacc]
        simp
      have hmapped : keyGroup k (insertHub acc it) =
          [mergeHub ({ c with highSpeedQueryHit := hs }) it] := by
        unfold insertHub
        rw [if_pos (by simp [hany])]
        have hpres : ∀ e ∈ acc,
            (fun i => decide (hubKey i = k))
              ((fun e => if hubKey e = hubKey it then mergeHub e it else e) e) =
            (fun i => decide (hubKey i = k)) e := by
          intro e _
          dsimp only
          by_cases hke : hubKey e = hubKey it
          · rw [if_pos hke, hubKey_mergeHub e it hke, hke]
          · rw [if_neg hke]
        have := filter_map_comm
          (fun e => if hubKey e = hubKey it then mergeHub e it else e)
          (fun i => decide (hubKey i = k)) acc hpres
        rw [keyGroup, this]
        rw [show acc.filter (fun i => decide (hubKey i = k)) = keyGroup k acc from rfl, hgacc]
        have hekey : hubKey ({ c with highSpeedQueryHit := hs } : HubResult) = hubKey it := by
          have hmem : ({ c with highSpeedQueryHit := hs } : HubResult) ∈ keyGroup k acc := by
            rw [hgacc]; simp
          have := (List.mem_filter.mp hmem).2
          rw [hk]
          simpa using this
        simp [hekey]
      constructor
      · intro hcontra
        rw [hgroup] at hcontra
        simp at hcontra
      · intro _
        have hde : distVal ({ c with highSpeedQueryHit := hs } : HubResult).distanceMeters =
            distVal c.distanceMeters := rfl
        by_cases hlt : distVal it.distanceMeters < distVal c.distanceMeters
        · refine ⟨it, hs || it.highSpeedQueryHit, ?_, ?_, ?_, ?_⟩
          · rw [hgroup]
            exact List.mem_append_right _ (List.mem_singleton.mpr rfl)
          · intro x hx
            rw [hgroup] at hx
            rcases List.mem_append.mp hx with hx | hx
            · exact le_of_lt (lt_of_lt_of_le hlt (hcmin x hx))
            · rw [List.mem_singleton.mp hx]
          · rw [hgroup, List.any_append, ← hhs]
            simp
          · rw [hmapped]
            unfold mergeHub
            rw [if_pos (by rw [hde]; exact hlt)]
        · refine ⟨c, hs || it.highSpeedQueryHit, ?_, ?_, ?_, ?_⟩
          · rw [hgroup]
            exact List.mem_append_left _ hcmem
          · intro x hx
            rw [hgroup] at hx
            rcases List.mem_append.mp hx with hx | hx
            · exact hcmin x hx
            · rw [List.mem_singleton.mp hx]
              exact le_of_not_lt hlt
          · rw [hgroup, List.any_append, ← hhs]
            simp
          · rw [hmapped]
            unfold mergeHub
            rw [if_neg (by rw [hde]; exact hlt)]
  · -- an unrelated key: both the group and the accumulator entry are unchanged
    have hgroup : keyGroup k (ps ++ [it]) = keyGroup k ps := by
      simp [keyGroup, List.filter_append, hk]
    have hacc : keyGroup k (insertHub acc it) = keyGroup k acc := by
      unfold insertHub
      by_cases hany : acc.any (fun e => decide (hubKey e = hubKey it)) = true
      · rw [if_pos (by simp [hany])]
        apply filter_map_eq_filter
        intro e _
        constructor
        · intro hpe
          have hek : hubKey e = k := by simpa using hpe
          rw [if_neg]
          intro heq
          exact hk (heq ▸ hek)
        · intro hpe
          by_cases hke : hubKey e = hubKey it
          · rw [if_pos hke]
            simp [hubKey_mergeHub e it hke, hk]
          · rw [if_neg hke]
            exact hpe
      · rw [if_neg (by simpa using hany)]
        simp [keyGroup, List.filter_append, hk]
    rw [hgroup, hacc]
    exact hps

theorem dedupeInv_foldl (items : List HubResult) :
    ∀ ps acc, DedupeInv ps acc → DedupeInv (ps ++ items) (items.foldl insertHub acc) := by
  induction items with
  | nil => intro ps acc h; simpa using h
  | cons x xs ih =>
    intro ps acc h
    have h1 := dedupeInv_step ps acc x h
    have h2 := ih (ps ++ [x]) (insertHub acc x) h1
    simpa [List.append_assoc] using h2

/-- C4: `dedupeHubs` partitions its input by the key
`name|lat.toFixed(6)|lon.toFixed(6)`: keys absent from the input are absent
from the output, and for every key present the output contains exactly one
entry, namely a colliding candidate of minimal `distanceMeters` (a missing
distance treated as `Number.MAX_SAFE_INTEGER`, i.e. worst) whose
`highSpeedQueryHit` is the OR of all colliding candidates' flags. -/
theorem claim_C4_dedupeHubs (items : List HubResult) (k : String) :
    (keyGroup k items = [] → keyGroup k (dedupeHubs items) = []) ∧
    (keyGroup k items ≠ [] →
      ∃ c hs, c ∈ keyGroup k items ∧
        (∀ x ∈ keyGroup k items, distVal c.distanceMeters ≤ distVal x.distanceMeters) ∧
        hs = (keyGroup k items).any (fun x => x.highSpeedQueryHit) ∧
        keyGroup k (dedupeHubs items) = [{ c with highSpeedQueryHit := hs }]) := by
  have := dedupeInv_foldl items [] [] dedupeInv_nil
  simpa [dedupeHubs] using this k

/-- C1 counterexample: at 北京站 with no city name (capacity 52, line-count
score 29, high-speed score 30) the exact rational blend is 39.55, whose
one-decimal rounding per the claimed formula is 39.6 — but the program's
binary64 evaluation of `52*0.45 + 29*0.35 + 30*0.2` lands strictly below
the tie and `toFixed(1)` yields 39.5, so `buildTrainStationProfile` differs
from the claimed exact-rounding profile. -/
theorem claim_C1_counterexample :
    (buildTrainStationProfile "北京站" none).compositeScore10 = 395 ∧
      (trainStationProfileSpec "北京站" none).compositeScore10 = 396 ∧
      buildTrainStationProfile "北京站" none ≠ trainStationProfileSpec "北京站" none := by
  refine ⟨by decide, by decide, by decide⟩

/-- C1 (amended): for every station name and optional city name,
`buildTrainStationProfile` returns exactly the profile described by the
amended specification: `capacityScore = clamp(20 + 38·cityMatch +
20·cityMainStyle + 12·directionalSuffix + 12·nationalHubStyle +
10·highSpeed − 65·countyLevel, 0, 100)`; `lineCountEstimate =
clamp(round(capacityScore/11) + 4·cityMatch + 3·highSpeed + 2·cityMainStyle
− 2·countyLevel, 1, 24)`; `lineCountScore =
clamp(round(lineCountEstimate · 4.2), 0, 100)`; `highSpeedScore` is 100 with
the high-speed signal and 30 without; the composite is the weighted
0.45/0.35/0.20 blend evaluated in IEEE 754 binary64 and rounded to one
decimal by `toFixed(1)` (represented ×10), which at exact `.05` ties of the
rational blend may round to the lower tenth; and the reason tags appear in
the fixed order city-match, city-main-style, high-speed, national-hub,
county-level, each exactly when its flag holds. -/
theorem claim_C1_buildTrainStationProfile_spec (name : String) (cityName : Option String) :
    buildTrainStationProfile name cityName = trainStationProfileSpecF64 name cityName :=
  buildTrainStationProfileFlags_eq_formula (trainNameFlags name cityName)

/-- C2: on the candidate list 北京站 (3 km, no high-speed query hit),
北京南站 (12 km, high-speed query hit) and 涿州东站 (45 km, high-speed query
hit) with city 北京, `pickBestTrainHub` restricted to high-speed candidates
returns a non-null result whose primary name is 北京南站, not 涿州东站. -/
theorem claim_C2_pickBestTrainHub_scenario :
    (pickBestTrainHub
      [{ kind := HubKind.highspeed, kindLabel := "高铁站", name := "北京站",
         address := "", distanceMeters := some 3000, latitude := 0, longitude := 0,
         highSpeedQueryHit := false, trainProfile := none, topCandidates := none },
       { kind := HubKind.highspeed, kindLabel := "高铁站", name := "北京南站",
         address := "", distanceMeters := some 12000, latitude := 0, longitude := 0,
         highSpeedQueryHit := true, trainProfile := none, topCandidates := none },
       { kind := HubKind.highspeed, kindLabel := "高铁站", name := "涿州东站",
         address := "", distanceMeters := some 45000, latitude := 0, longitude := 0,
         highSpeedQueryHit := true, trainProfile := none, topCandidates := none }]
      (some "北京") true).map HubResult.name = some "北京南站" := by
  decide

/-- C6: with `highSpeedOnly`, `pickBestTrainHub` returns null whenever no
candidate surviving the county-level and city-name pre-filters has both the
high-speed name signal in its computed profile and the fetch-time
`highSpeedQueryHit` flag, even though (non-high-speed) candidates exist. -/
theorem claim_C6_highSpeedOnly_null (candidates : List HubResult) (cityName : Option String)
    (h : ∀ item ∈ trainWorking candidates cityName,
      ¬((buildTrainStationProfile item.name cityName).hasHighSpeedSignal = true ∧
        item.highSpeedQueryHit = true)) :
    pickBestTrainHub candidates cityName true = none := by
  have hfil : trainFiltered candidates cityName true = [] := by
    unfold trainFiltered trainRankedSource
    rw [if_pos rfl]
    apply List.filter_eq_nil_iff.mpr
    intro x hx
    rcases List.mem_map.mp hx with ⟨item, hitem, rfl⟩
    have hni := h item hitem
    simp only [Bool.and_eq_true]
    intro hcontra
    exact hni ⟨hcontra.1, hcontra.2⟩
  unfold pickBestTrainHub
  by_cases he : candidates.isEmpty
  · rw [if_pos he]
  · rw [if_neg he, hfil]
    simp

theorem trainLe_score (a b : HubResult) (h : trainLe a b) :
    compositeOf b ≤ compositeOf a := by
  rcases h with h | ⟨h, _⟩
  · exact le_of_lt h
  · exact le_of_eq h

theorem airLe_score (a b : HubResult × AirportScoreResult) (h : airLe a b) :
    b.2.score ≤ a.2.score := by
  rcases h with h | ⟨h, _⟩
  · exact le_of_lt h
  · exact le_of_eq h

theorem mem_trainRanked_profile (candidates : List HubResult) (cityName : Option String)
    (hso : Bool) (x : HubResult) (hx : x ∈ trainRanked candidates cityName hso) :
    x.trainProfile = some (buildTrainStationProfile x.name cityName) := by
  have hx1 : x ∈ trainFiltered candidates cityName hso :=
    (List.mem_insertionSort trainLe).mp hx
  have hx2 : x ∈ trainRankedSource candidates cityName := by
    cases hso with
    | true => exact List.mem_of_mem_filter hx1
    | false => exact hx1
  rcases List.mem_map.mp hx2 with ⟨item, _, rfl⟩
  rfl

theorem mem_airportRanked_score (candidates : List HubResult) (cityName : Option String)
    (row : HubResult × AirportScoreResult) (hrow : row ∈ airportRanked candidates cityName) :
    row.2 = buildAirportScore row.1.name cityName row.1.distanceMeters := by
  have h1 : row ∈ (airportWorking candidates).map
      (fun item => (item, buildAirportScore item.name cityName item.distanceMeters)) :=
    (List.mem_insertionSort airLe).mp hrow
  rcases List.mem_map.mp h1 with ⟨item, _, rfl⟩
  rfl

theorem trainTopCandidates_sorted (candidates : List HubResult) (cityName : Option String)
    (hso : Bool) :
    List.Sorted (fun x y : HubCandidate => y.score ≤ x.score)
      (trainTopCandidates candidates cityName hso) := by
  have hs : List.Sorted trainLe (trainRanked candidates cityName hso) :=
    List.sorted_insertionSort trainLe (trainFiltered candidates cityName hso)
  have ht : List.Sorted trainLe ((trainRanked candidates cityName hso).take 3) :=
    List.Pairwise.sublist (List.take_sublist 3 _) hs
  exact List.Pairwise.map trainCandidateRow (fun a b hab => trainLe_score a b hab) ht

theorem airportTopCandidates_sorted (candidates : List HubResult) (cityName : Option String) :
    List.Sorted (fun x y : HubCandidate => y.score ≤ x.score)
      (airportTopCandidates candidates cityName) := by
  have hs : List.Sorted airLe (airportRanked candidates cityName) :=
    List.sorted_insertionSort airLe _
  have ht : List.Sorted airLe ((airportRanked candidates cityName).take 3) :=
    List.Pairwise.sublist (List.take_sublist 3 _) hs
  exact List.Pairwise.map airportCandidateRow (fun a b hab => airLe_score a b hab) ht

/-- C5: whenever `pickBestTrainHub` or `pickBestAirportHub` returns a
result, its `topCandidates` list has at most three entries, is sorted by
descending score, and is the projection of the first three entries of the
underlying ranked list, which is sorted with respect to the full comparator
— `trainLe`: descending composite score, ties by descending
`lineCountEstimate`, then ascending distance with a missing distance worst;
`airLe`: descending airport score, ties by ascending distance with a
missing distance worst — and its first entry carries the result's own name,
address, distance and score (the train composite ×10 from the result's
attached profile, and the airport score recomputed from the result's own
name and distance). -/
theorem claim_C5_topCandidates_invariant :
    (∀ (candidates : List HubResult) (cityName : Option String) (hso : Bool) (r : HubResult),
      pickBestTrainHub candidates cityName hso = some r →
        ∃ tops, r.topCandidates = some tops ∧
          tops = ((trainRanked candidates cityName hso).take 3).map trainCandidateRow ∧
          List.Sorted trainLe (trainRanked candidates cityName hso) ∧
          tops.length ≤ 3 ∧
          List.Sorted (fun x y : HubCandidate => y.score ≤ x.score) tops ∧
          ∃ c₀, tops.head? = some c₀ ∧ c₀.name = r.name ∧ c₀.address = r.address ∧
            c₀.distanceMeters = r.distanceMeters ∧
            ∃ p, r.trainProfile = some p ∧ c₀.score = p.compositeScore10) ∧
    (∀ (candidates : List HubResult) (cityName : Option String) (r : HubResult),
      pickBestAirportHub candidates cityName = some r →
        ∃ tops, r.topCandidates = some tops ∧
          tops = ((airportRanked candidates cityName).take 3).map airportCandidateRow ∧
          List.Sorted airLe (airportRanked candidates cityName) ∧
          tops.length ≤ 3 ∧
          List.Sorted (fun x y : HubCandidate => y.score ≤ x.score) tops ∧
          ∃ c₀, tops.head? = some c₀ ∧ c₀.name = r.name ∧ c₀.address = r.address ∧
            c₀.distanceMeters = r.distanceMeters ∧
            c₀.score = (buildAirportScore r.name cityName r.distanceMeters).score) := by
  constructor
  · intro candidates cityName hso r hr
    unfold pickBestTrainHub at hr
    by_cases he : candidates.isEmpty
    · rw [if_pos he] at hr
      exact absurd hr (by simp)
    · rw [if_neg he] at hr
      by_cases hf : (trainFiltered candidates cityName hso).isEmpty
      · rw [if_pos hf] at hr
        exact absurd hr (by simp)
      · rw [if_neg hf] at hr
        cases hrk : trainRanked candidates cityName hso with
        | nil =>
          rw [hrk] at hr
          exact absurd hr (by simp)
        | cons p rest =>
          rw [hrk] at hr
          simp only [List.head?] at hr
          have hre : r = { p with
              topCandidates := some (trainTopCandidates candidates cityName hso) } :=
            (Option.some.inj hr).symm
          subst hre
          refine ⟨trainTopCandidates candidates cityName hso, rfl, ?_, ?_, ?_, ?_, ?_⟩
          · unfold trainTopCandidates
            rw [hrk]
          · rw [← hrk]
            exact List.sorted_insertionSort trainLe (trainFiltered candidates cityName hso)
          · unfold trainTopCandidates
            rw [List.length_map, List.length_take]
            exact min_le_left 3 _
          · exact trainTopCandidates_sorted candidates cityName hso
          · have hpmem : p ∈ trainRanked candidates cityName hso := by
              rw [hrk]
              exact List.mem_cons_self p rest
            have hprof := mem_trainRanked_profile candidates cityName hso p hpmem
            refine ⟨trainCandidateRow p, ?_, rfl, rfl, rfl,
              buildTrainStationProfile p.name cityName, hprof, ?_⟩
            · unfold trainTopCandidates
              rw [hrk]
              rfl
            · show compositeOf p = _
              unfold compositeOf
              rw [hprof]
  · intro candidates cityName r hr
    unfold pickBestAirportHub at hr
    by_cases he : candidates.isEmpty
    · rw [if_pos he] at hr
      exact absurd hr (by simp)
    · rw [if_neg he] at hr
      cases hrk : airportRanked candidates cityName with
      | nil =>
        rw [hrk] at hr
        exact absurd hr (by simp)
      | cons row rest =>
        rw [hrk] at hr
        simp only [List.head?] at hr
        have hre : r = { row.1 with
            topCandidates := some (airportTopCandidates candidates cityName) } :=
          (Option.some.inj hr).symm
        subst hre
        refine ⟨airportTopCandidates candidates cityName, rfl, ?_, ?_, ?_, ?_, ?_⟩
        · unfold airportTopCandidates
          rw [hrk]
        · rw [← hrk]
          exact List.sorted_insertionSort airLe _
        · unfold airportTopCandidates
          rw [List.length_map, List.length_take]
          exact min_le_left 3 _
        · exact airportTopCandidates_sorted candidates cityName
        · have hrmem : row ∈ airportRanked candidates cityName := by
            rw [hrk]
            exact List.mem_cons_self row rest
          have hscore := mem_airportRanked_score candidates cityName row hrmem
          refine ⟨airportCandidateRow row, ?_, rfl, rfl, rfl, ?_⟩
          · unfold airportTopCandidates
            rw [hrk]
            rfl
          · show row.2.score = _
            rw [hscore]

/-- Witness for C4: an absent key yields no output entry, and the shared key
of the two colliding witness entries yields exactly one merged entry. -/
theorem claim_C4_dedupeHubs_witness :
    keyGroup "西安站|0.000000|0.000000" (dedupeHubs [c4ItemFar, c4ItemNear]) = [] ∧
    (∃ c hs, c ∈ keyGroup "北京西站|0.000000|0.000000" [c4ItemFar, c4ItemNear] ∧
      (∀ x ∈ keyGroup "北京西站|0.000000|0.000000" [c4ItemFar, c4ItemNear],
        distVal c.distanceMeters ≤ distVal x.distanceMeters) ∧
      hs = (keyGroup "北京西站|0.000000|0.000000" [c4ItemFar, c4ItemNear]).any
        (fun x => x.highSpeedQueryHit) ∧
      keyGroup "北京西站|0.000000|0.000000" (dedupeHubs [c4ItemFar, c4ItemNear]) =
        [{ c with highSpeedQueryHit := hs }]) :=
  ⟨(claim_C4_dedupeHubs [c4ItemFar, c4ItemNear] "西安站|0.000000|0.000000").1 (by decide),
   (claim_C4_dedupeHubs [c4ItemFar, c4ItemNear] "北京西站|0.000000|0.000000").2 (by decide)⟩

/-- Witness for C5: both invariants hold on concrete one-candidate inputs. -/
theorem claim_C5_topCandidates_invariant_witness :
    (∃ tops, c5TrainWitnessResult.topCandidates = some tops ∧
      tops = ((trainRanked c5TrainInput none false).take 3).map trainCandidateRow ∧
      List.Sorted trainLe (trainRanked c5TrainInput none false) ∧
      tops.length ≤ 3 ∧
      List.Sorted (fun x y : HubCandidate => y.score ≤ x.score) tops ∧
      ∃ c₀, tops.head? = some c₀ ∧ c₀.name = c5TrainWitnessResult.name ∧
        c₀.address = c5TrainWitnessResult.address ∧
        c₀.distanceMeters = c5TrainWitnessResult.distanceMeters ∧
        ∃ p, c5TrainWitnessResult.trainProfile = some p ∧ c₀.score = p.compositeScore10) ∧
    (∃ tops, c5AirportWitnessResult.topCandidates = some tops ∧
      tops = ((airportRanked c5AirportInput (some "上海")).take 3).map airportCandidateRow ∧
      List.Sorted airLe (airportRanked c5AirportInput (some "上海")) ∧
      tops.length ≤ 3 ∧
      List.Sorted (fun x y : HubCandidate => y.score ≤ x.score) tops ∧
      ∃ c₀, tops.head? = some c₀ ∧ c₀.name = c5AirportWitnessResult.name ∧
        c₀.address = c5AirportWitnessResult.address ∧
        c₀.distanceMeters = c5AirportWitnessResult.distanceMeters ∧
        c₀.score = (buildAirportScore c5AirportWitnessResult.name (some "上海")
          c5AirportWitnessResult.distanceMeters).score) :=
  ⟨claim_C5_topCandidates_invariant.1 c5TrainInput
      none false c5TrainWitnessResult (by decide),
    claim_C5_topCandidates_invariant.2 c5AirportInput
      (some "上海") c5AirportWitnessResult (by decide)⟩

theorem airportGroupRep_min (candidates : List HubResult) (k : String) (r : HubResult)
    (hr : airportGroupRep candidates k = some r) :
    r ∈ airportGroupFor candidates k ∧
      ∀ x ∈ airportGroupFor candidates k,
        distVal r.distanceMeters ≤ distVal x.distanceMeters := by
  unfold airportGroupRep at hr
  cases hs : List.insertionSort distLe (airportGroupFor candidates k) with
  | nil =>
    rw [hs] at hr
    exact absurd hr (by simp)
  | cons h t =>
    rw [hs] at hr
    simp only [List.head?] at hr
    have hhr : h = r := Option.some.inj hr
    subst hhr
    constructor
    · have hmem : h ∈ List.insertionSort distLe (airportGroupFor candidates k) := by
        rw [hs]
        exact List.mem_cons_self h t
      exact (List.mem_insertionSort distLe).mp hmem
    · intro x hx
      have hxs : x ∈ List.insertionSort distLe (airportGroupFor candidates k) :=
        (List.mem_insertionSort distLe).mpr hx
      rw [hs] at hxs
      rcases List.mem_cons.mp hxs with rfl | hxt
      · exact le_refl _
      · have hsorted : List.Sorted distLe
            (List.insertionSort distLe (airportGroupFor candidates k)) :=
          List.sorted_insertionSort distLe _
        rw [hs] at hsorted
        exact List.rel_of_sorted_cons hsorted x hxt

/-- C8: 浦东国际机场T1航站楼 and 浦东国际机场T2 both canonicalize to
浦东国际机场 (truncation after the first 机场), and in every candidate list
containing both, `pickBestAirportHub`'s grouping places them in the same
canonical group, whose scored representative is a group member of minimal
distance (hence the nearer of the two when they are the whole group). -/
theorem claim_C8_airport_canonicalization :
    (canonicalAirportName "浦东国际机场T1航站楼" = "浦东国际机场" ∧
      canonicalAirportName "浦东国际机场T2" = "浦东国际机场") ∧
    ∀ (candidates : List HubResult) (a b : HubResult),
      a ∈ candidates → b ∈ candidates →
      a.name = "浦东国际机场T1航站楼" → b.name = "浦东国际机场T2" →
      canonicalAirportName a.name = canonicalAirportName b.name ∧
      a ∈ airportGroupFor candidates "浦东国际机场" ∧
      b ∈ airportGroupFor candidates "浦东国际机场" ∧
      ∀ r, airportGroupRep candidates "浦东国际机场" = some r →
        r ∈ airportGroupFor candidates "浦东国际机场" ∧
        ∀ x ∈ airportGroupFor candidates "浦东国际机场",
          distVal r.distanceMeters ≤ distVal x.distanceMeters := by
  refine ⟨⟨by decide, by decide⟩, ?_⟩
  intro candidates a b ha hb han hbn
  refine ⟨?_, ?_, ?_, ?_⟩
  · rw [han, hbn]
    decide
  · exact List.mem_filter.mpr ⟨ha, by rw [han]; decide⟩
  · exact List.mem_filter.mpr ⟨hb, by rw [hbn]; decide⟩
  · intro r hr
    exact airportGroupRep_min candidates _ r hr

/-- Witness for C8: on the two-entry list the canonical names agree and the
group representative (the T1 entry, being nearer) is at least as close as
the T2 entry. -/
theorem claim_C8_airport_canonicalization_witness :
    canonicalAirportName c8TerminalOne.name = canonicalAirportName c8TerminalTwo.name ∧
      distVal c8TerminalOne.distanceMeters ≤ distVal c8TerminalTwo.distanceMeters := by
  have h := claim_C8_airport_canonicalization.2 [c8TerminalOne, c8TerminalTwo]
    c8TerminalOne c8TerminalTwo (by decide) (by decide) rfl rfl
  have h2 := h.2.2.2 c8TerminalOne (by decide)
  exact ⟨h.1, h2.2 c8TerminalTwo (by decide)⟩

/-- C9 counterexample: with keyword 公园, an empty cache, a transport
failure on the (only) text-search call and a successful tips call, the
suggestion resolver absorbs the failure and returns the tips-derived
suggestions instead of propagating any error — refuting the claim that
transport failures of its external calls always propagate. -/
theorem claim_C9_counterexample : ¬ c9SuggestionClaim := by
  intro h
  obtain ⟨e, he⟩ := h [] "公园" none 8
    { ok := false, status := "", infocode := none, pois := [] } []
    { ok := true, status := "1",
      tips := [{ id := some "t1", name := some "人民公园", district := some "某区",
                 address := some "某路", location := some "116.0,39.0" }] }
    (by decide) (by decide) rfl
  have hval : fetchAddressSuggestions [] "公园" none 8
      [{ ok := false, status := "", infocode := none, pois := [] }]
      { ok := true, status := "1",
        tips := [{ id := some "t1", name := some "人民公园", district := some "某区",
                   address := some "某路", location := some "116.0,39.0" }] } =
      Except.ok
        ([{ id := "t1", name := "人民公园", address := "某区 某路",
            latitude := JSNum.fin 39, longitude := JSNum.fin 116 }],
         [("公园||8",
           [{ id := "t1", name := "人民公园", address := "某区 某路",
              latitude := JSNum.fin 39, longitude := JSNum.fin 116 }])]) := by
    decide
  rw [hval] at he
  exact Except.noConfusion he

theorem finishSuggestions_error (cacheKey : String)
    (cache : List (String × List AddressSuggestion)) (deduped : List AddressSuggestion)
    (e : AmapApiError) (he : finishSuggestions cacheKey cache deduped = Except.error e) :
    e = noCandidatesError := by
  unfold finishSuggestions at he
  split at he
  · exact (Except.error.inj he).symm
  · exact Except.noConfusion he

/-- C9 (amended): the hub fetcher's `fetchAroundPois` propagates every
failure — a transport failure as a code-less `AmapApiError` and a provider
non-success as an `AmapApiError` carrying the provider's `infocode` — while
the address-suggestion resolver absorbs transport and provider failures of
its individual calls: the only error it ever returns is the code-less
no-candidates error raised when nothing usable remains. -/
theorem claim_C9_error_propagation :
    (∀ r : AroundResponse, r.ok = false →
      fetchAroundPois r =
        Except.error { message := "高德请求失败: " ++ toString r.httpStatus, code := none }) ∧
    (∀ r : AroundResponse, r.ok = true → r.status ≠ "1" →
      ∃ e, fetchAroundPois r = Except.error e ∧ e.code = r.infocode) ∧
    (∀ (cache : List (String × List AddressSuggestion)) (keyword : String)
      (city : Option String) (limit : ℕ) (textResponses : List TextResponse)
      (tips : TipsResponse) (e : AmapApiError),
      fetchAddressSuggestions cache keyword city limit textResponses tips =
        Except.error e → e = noCandidatesError) := by
  refine ⟨?_, ?_, ?_⟩
  · intro r h
    unfold fetchAroundPois
    rw [if_pos h]
  · intro r h1 h2
    refine ⟨{ message := "高德接口错误: " ++ r.info.getD "unknown" ++ " (" ++
        r.infocode.getD "n/a" ++ ")", code := r.infocode }, ?_, rfl⟩
    unfold fetchAroundPois
    rw [if_neg (by simp [h1]), if_pos h2]
  · intro cache keyword city limit textResponses tips e he
    unfold fetchAddressSuggestions at he
    repeat' split at he
    all_goals
      first
      | exact Except.noConfusion he
      | exact finishSuggestions_error _ _ _ _ he

/-- Witness for C9 (amended): the transport-failure propagation of the hub
fetcher at a concrete response, and the absorbed run of the suggestion
resolver whose only possible error is the no-candidates error. -/
theorem claim_C9_error_propagation_witness :
    fetchAroundPois
      { ok := false, httpStatus := 500, status := "", info := none,
        infocode := none, pois := [] } =
      Except.error { message := "高德请求失败: 500", code := none } ∧
    noCandidatesError = noCandidatesError :=
  ⟨claim_C9_error_propagation.1
      { ok := false, httpStatus := 500, status := "", info := none,
        infocode := none, pois := [] } rfl,
    claim_C9_error_propagation.2.2 [] "公园" none 8 []
      { ok := false, status := "", tips := [] } noCandidatesError (by decide)⟩

/-- Witness for C6: a single ordinary station without any high-speed signal
is rejected outright under `highSpeedOnly`. -/
theorem claim_C6_highSpeedOnly_null_witness :
    pickBestTrainHub
      [{ kind := HubKind.highspeed, kindLabel := "高铁站", name := "保定站",
         address := "", distanceMeters := some 8000, latitude := 0, longitude := 0,
         highSpeedQueryHit := false, trainProfile := none, topCandidates := none }]
      none true = none :=
  claim_C6_highSpeedOnly_null _ none (by decide)

end HubRadar
